import Mathlib

/-!
# Scene segmentation node

A shallow embedding of `mcr_scene_segmentation/ros/src/scene_segmentation_node.cpp`:
the bounding-box pose geometry (`getPose`), the segmentation pass (`segment`),
the frame handler (`pointcloudCallback`) and the command dispatcher
(`eventCallback`).

Scalars (`float`/`double` in the source) are an arbitrary linearly ordered field
`α` together with a square-root function `sqrt : α → α`; the theorems about the
geometry instantiate `α := ℝ` and `sqrt := Real.sqrt` (exact real arithmetic).
External collaborators (tf, the recognition service, the segmenter) appear as
explicit environment data attached to each event.
-/

set_option linter.unusedSectionVars false

namespace SceneSegmentation

/-! ## Linear algebra used by `getPose` (Eigen) -/

/-- Three-component vector, `Eigen::Vector3f`. -/
structure Vector3f (α : Type) where
  x : α
  y : α
  z : α
deriving DecidableEq

/-- Three by three matrix, `Eigen::Matrix3f`, stored by columns. -/
structure Matrix3f (α : Type) where
  col0 : Vector3f α
  col1 : Vector3f α
  col2 : Vector3f α
deriving DecidableEq

/-- Quaternion with Eigen's coefficient order `(x, y, z, w)`, `Eigen::Quaternion<float>`. -/
structure Quaternionf (α : Type) where
  x : α
  y : α
  z : α
  w : α
deriving DecidableEq

variable {α : Type} [LinearOrderedField α]

namespace Vector3f

/-- Component access `v(i)`. -/
def coeff (v : Vector3f α) (i : Nat) : α :=
  match i with
  | 0 => v.x
  | 1 => v.y
  | _ => v.z

/-- Vector difference `a - b`. -/
def sub (a b : Vector3f α) : Vector3f α :=
  ⟨a.x - b.x, a.y - b.y, a.z - b.z⟩

/-- Dot product. -/
def dot (a b : Vector3f α) : α :=
  a.x * b.x + a.y * b.y + a.z * b.z

/-- Squared Euclidean norm, `squaredNorm()`. -/
def squaredNorm (a : Vector3f α) : α :=
  a.x * a.x + a.y * a.y + a.z * a.z

/-- Euclidean norm, `norm()`: the square root of `squaredNorm()`. -/
def norm (sqrt : α → α) (a : Vector3f α) : α :=
  sqrt a.squaredNorm

/-- Division of a vector by a scalar, `a / s`. -/
def divScalar (a : Vector3f α) (s : α) : Vector3f α :=
  ⟨a.x / s, a.y / s, a.z / s⟩

/-- Cross product `a.cross(b)`. -/
def cross (a b : Vector3f α) : Vector3f α :=
  ⟨a.y * b.z - a.z * b.y, a.z * b.x - a.x * b.z, a.x * b.y - a.y * b.x⟩

end Vector3f

namespace Matrix3f

/-- Column `c` of the matrix. -/
def col (m : Matrix3f α) (c : Nat) : Vector3f α :=
  match c with
  | 0 => m.col0
  | 1 => m.col1
  | _ => m.col2

/-- Entry `coeff(r, c)`: row `r`, column `c`. -/
def coeff (m : Matrix3f α) (r c : Nat) : α :=
  (m.col c).coeff r

/-- Sum of the diagonal, `trace()`. -/
def trace (m : Matrix3f α) : α :=
  m.coeff 0 0 + m.coeff 1 1 + m.coeff 2 2

/-- Matrix times vector. -/
def mulVec (m : Matrix3f α) (v : Vector3f α) : Vector3f α :=
  ⟨m.coeff 0 0 * v.x + m.coeff 0 1 * v.y + m.coeff 0 2 * v.z,
   m.coeff 1 0 * v.x + m.coeff 1 1 * v.y + m.coeff 1 2 * v.z,
   m.coeff 2 0 * v.x + m.coeff 2 1 * v.y + m.coeff 2 2 * v.z⟩

/-- Determinant, expanded along the first column. -/
def det (m : Matrix3f α) : α :=
  m.col0.dot (m.col1.cross m.col2)

end Matrix3f

namespace Quaternionf

/-- Squared norm of the four coefficients. -/
def squaredNorm (q : Quaternionf α) : α :=
  q.x * q.x + q.y * q.y + q.z * q.z + q.w * q.w

/-- Conversion of a 3x3 matrix to a quaternion, as done by the constructor
`Eigen::Quaternion<float> q(m)` (Eigen's `quaternionbase_assign_impl` for a 3x3
argument, the algorithm of Shoemake): one branch when the trace is positive,
otherwise the largest diagonal entry `i` selects the coefficient computed from the
square root, with `j = (i+1) % 3` and `k = (j+1) % 3`. -/
def ofMatrix (sqrt : α → α) (mat : Matrix3f α) : Quaternionf α :=
  let t := mat.trace
  if t > 0 then
    let t1 := sqrt (t + 1)
    let w := (1 / 2) * t1
    let t2 := (1 / 2) / t1
    { x := (mat.coeff 2 1 - mat.coeff 1 2) * t2
      y := (mat.coeff 0 2 - mat.coeff 2 0) * t2
      z := (mat.coeff 1 0 - mat.coeff 0 1) * t2
      w := w }
  else
    let i0 : Nat := if mat.coeff 1 1 > mat.coeff 0 0 then 1 else 0
    let i : Nat := if mat.coeff 2 2 > mat.coeff i0 i0 then 2 else i0
    let j : Nat := (i + 1) % 3
    let k : Nat := (j + 1) % 3
    let t1 := sqrt (mat.coeff i i - mat.coeff j j - mat.coeff k k + 1)
    let qi := (1 / 2) * t1
    let t2 := (1 / 2) / t1
    let w := (mat.coeff k j - mat.coeff j k) * t2
    let qj := (mat.coeff j i + mat.coeff i j) * t2
    let qk := (mat.coeff k i + mat.coeff i k) * t2
    let c : Nat → α := fun n => if n = i then qi else if n = j then qj else qk
    { x := c 0, y := c 1, z := c 2, w := w }

/-- In-place normalisation `q.normalize()`: Eigen divides the coefficients by the
norm when the squared norm is positive and leaves them alone otherwise. -/
def normalize (sqrt : α → α) (q : Quaternionf α) : Quaternionf α :=
  let z := q.squaredNorm
  if z > 0 then
    let n := sqrt z
    { x := q.x / n, y := q.y / n, z := q.z / n, w := q.w / n }
  else q

/-- Rotation matrix of a quaternion, Eigen's `toRotationMatrix()`. For a unit
quaternion this is the matrix of the rotation `v ↦ q v q⁻¹`. -/
def toRotationMatrix (q : Quaternionf α) : Matrix3f α :=
  let tx := 2 * q.x
  let ty := 2 * q.y
  let tz := 2 * q.z
  let twx := tx * q.w
  let twy := ty * q.w
  let twz := tz * q.w
  let txx := tx * q.x
  let txy := ty * q.x
  let txz := tz * q.x
  let tyy := ty * q.y
  let tyz := tz * q.y
  let tzz := tz * q.z
  { col0 := ⟨1 - (tyy + tzz), txy + twz, txz - twy⟩
    col1 := ⟨txy - twz, 1 - (txx + tzz), tyz + twx⟩
    col2 := ⟨txz + twy, tyz - twx, 1 - (txx + tyy)⟩ }

/-- The rotation represented by a quaternion, applied to a vector. -/
def rotate (q : Quaternionf α) (v : Vector3f α) : Vector3f α :=
  q.toRotationMatrix.mulVec v

end Quaternionf

/-! ## Messages -/

/-- Message header `std_msgs/Header`: time stamp and coordinate frame. -/
structure Header where
  stamp : Nat
  frame_id : String
deriving DecidableEq

/-- Position and orientation, `geometry_msgs/Pose`. -/
structure Pose (α : Type) where
  position : Vector3f α
  orientation : Quaternionf α
deriving DecidableEq

/-- Pose with a header, `geometry_msgs/PoseStamped`. -/
structure PoseStamped (α : Type) where
  header : Header
  pose : Pose α
deriving DecidableEq

/-- Modelled from the spec: the class `mas_perception_libs::BoundingBox`, declared
outside the source file, as the data its accessors `getCenter()` and `getVertices()`
return: a center point and the ordered vertices. -/
structure BoundingBox (α : Type) where
  center : Vector3f α
  vertices : List (Vector3f α)
deriving DecidableEq

/-! ## `getPose` -/

/-- The three axes computed at lines 279-288 of `getPose` from the vertices
`v0`, `v1`, `v3`, `v4`: returns `(n1, n2, n3)`. -/
def getPoseAxes (sqrt : α → α) (v0 v1 v3 v4 : Vector3f α) :
    Vector3f α × Vector3f α × Vector3f α :=
  let n3 := (v4.sub v0).divScalar ((v4.sub v0).norm sqrt)
  let n1 :=
    if (v1.sub v0).norm sqrt > (v3.sub v0).norm sqrt then
      (v1.sub v0).divScalar ((v1.sub v0).norm sqrt)
    else
      (v3.sub v0).divScalar ((v3.sub v0).norm sqrt)
  let n2 := n3.cross n1
  (n1, n2, n3)

/-- The function `SceneSegmentationNode::getPose`. Reading a vertex that the box does
not have is undefined in the source and gives `none` here. The header of the result
is left at its default value. -/
def getPose (sqrt : α → α) (object_height_above_workspace_ : α) (box : BoundingBox α) :
    Option (PoseStamped α) := do
  let vertices := box.vertices
  let v4 ← vertices[4]?
  let v0 ← vertices[0]?
  let v1 ← vertices[1]?
  let v3 ← vertices[3]?
  let (n1, n2, n3) := getPoseAxes sqrt v0 v1 v3 v4
  let m : Matrix3f α := ⟨n1, n2, n3⟩
  let q := (Quaternionf.ofMatrix sqrt m).normalize sqrt
  let v2 ← vertices[2]?
  let workspace_height := (v0.coeff 2 + v1.coeff 2 + v2.coeff 2 + v3.coeff 2) / 4
  let centroid := box.center
  pure
    { header := ⟨0, ""⟩
      pose :=
        { position :=
            ⟨centroid.coeff 0, centroid.coeff 1, workspace_height + object_height_above_workspace_⟩
          orientation := ⟨q.x, q.y, q.z, q.w⟩ } }

/-- The longer of the two horizontal edges at vertex 0, as compared at line 280
(the edge to vertex 3 when neither is longer). -/
def longerEdge (sqrt : α → α) (v0 v1 v3 : Vector3f α) : Vector3f α :=
  if (v1.sub v0).norm sqrt > (v3.sub v0).norm sqrt then v1.sub v0 else v3.sub v0

/-- Non-degenerate reference corner: vertex 4 differs from vertex 0, and the longer
horizontal edge has non-zero length and is not parallel to the height edge. -/
def NonDegenerate (sqrt : α → α) (v0 v1 v3 v4 : Vector3f α) : Prop :=
  v4 ≠ v0 ∧ (longerEdge sqrt v0 v1 v3).norm sqrt ≠ 0 ∧
    (v4.sub v0).cross (longerEdge sqrt v0 v1 v3) ≠ ⟨0, 0, 0⟩


/-- The box of the scenario in the testable properties: vertex0 = (0,0,0),
vertex1 = (1,0,0), vertex3 = (0,2,0), vertex4 = (0,0,1), completed to a cuboid with
its center. -/
def scenarioBox : BoundingBox α :=
  { center := ⟨1 / 2, 1, 1 / 2⟩
    vertices :=
      [⟨0, 0, 0⟩, ⟨1, 0, 0⟩, ⟨1, 2, 0⟩, ⟨0, 2, 0⟩, ⟨0, 0, 1⟩, ⟨1, 0, 1⟩, ⟨1, 2, 1⟩, ⟨0, 2, 1⟩] }

/-! ## Node state, environment and trace -/

/-- Point cloud message (`sensor_msgs/PointCloud2`, also standing for the PCL clouds
converted to and from it): header and an uninterpreted payload. -/
structure PointCloud2 where
  header : Header
  data : List Nat
deriving DecidableEq

/-- Modelled from the spec: the type of the counter `object_id_` and of the field
`database_id`, declared outside the source file (`scene_segmentation_node.h` and the
message definition); the spec's strictly increasing integer, taken without an upper
bound. -/
abbrev ObjectId := Nat

/-- Modelled from the spec: the class `CloudAccumulation`, declared outside the source
file, as the list of the clouds merged by `addCloud` since the last `reset`. -/
abbrev CloudAccumulation := List PointCloud2

/-- Object record of the published list (`mcr_perception_msgs/Object`), with the
fields that `segment` fills in. -/
structure Object (α : Type) where
  name : String
  probability : α
  pose : PoseStamped α
  pointcloud : PointCloud2
  database_id : ObjectId
deriving DecidableEq

/-- Outcome of a block of tf calls. The source distinguishes `tf::LookupException`
(the only class caught in `segment`) from the other subclasses of
`tf::TransformException` (all of them caught in `pointcloudCallback`). -/
inductive TfResult (β : Type) where
  | ok (value : β)
  | lookupException
  | otherTransformException
deriving DecidableEq

/-- Response of the recognition service (`RecognizeObject::Response`). -/
structure RecognizeResponse (α : Type) where
  name : String
  probability : α
deriving DecidableEq

/-- What the outside world answers during iteration `i` of the loop of `segment`. -/
structure IterEnv (α : Type) where
  /-- Value of `recognize_service.exists()`. -/
  service_exists : Bool
  /-- Result of `recognize_service.call(srv)`: the response on success. -/
  service_call : Option (RecognizeResponse α)
  /-- Parameter `target_frame_id`; `none` when `hasParam` is false. -/
  target_frame_id : Option String
  /-- Time written by `getLatestCommonTime`. -/
  common_time : Nat
  /-- The call `transformPose(target_frame_id, pose, pose_transformed)`. -/
  transformPose : String → PoseStamped α → TfResult (PoseStamped α)

/-- What the outside world answers during one call of `segment`: the output of
`segment_scene`, the clock and the per-iteration answers. -/
structure SegmentEnv (α : Type) where
  clusters : List PointCloud2
  boxes : List (BoundingBox α)
  workspace_height : α
  debug : PointCloud2
  now : Nat
  iter : Nat → IterEnv α

/-- What the outside world answers during one call of `findPlane`. -/
structure PlaneEnv (α : Type) where
  workspace_height : α
  debug : PointCloud2

/-- What the outside world answers during one call of `pointcloudCallback`. -/
structure FrameEnv (α : Type) where
  /-- Parameter `target_frame_id`, read with default `"base_link"`. -/
  target_frame_id : Option String
  /-- Time written by `getLatestCommonTime`. -/
  common_time : Nat
  /-- The `try` block ending in `pcl_ros::transformPointCloud(target_frame_id, *msg,
  msg_transformed, ...)`: the transformed message, or the exception raised. -/
  transformPointCloud : String → PointCloud2 → TfResult PointCloud2
  /-- Used by the segmentation pass of the dataset-collection mode. -/
  segment : SegmentEnv α

/-- What the outside world answers during one call of `eventCallback`. -/
structure CommandEnv (α : Type) where
  plane : PlaneEnv α
  segment : SegmentEnv α

/-- Externally visible effects of the node, in the order they happen. `object` marks
the completion of one record of the object list (line 222, where it receives its
`database_id`); the other constructors are calls on publishers, on the subscriber and
on the accumulation buffer. -/
inductive Action (α : Type) where
  | pub_event_out (data : String)
  | pub_object_list (objects : List (Object α))
  | pub_workspace_height (data : α)
  | pub_debug (cloud : PointCloud2)
  | visualize (labels : List String)
  | savePcd (obj_name : String)
  | addCloud (cloud : PointCloud2)
  | reset
  | subscribe
  | shutdown
  | object (record : Object α)

/-- Ways a callback can end without returning normally. -/
inductive Abort where
  /-- A `tf::TransformException` that no handler catches leaves the callback. -/
  | uncaughtTransformException
  /-- Out-of-range read of a `std::vector` (undefined behaviour in the source). -/
  | undefined
deriving DecidableEq

/-- Member variables of `SceneSegmentationNode` that the callbacks read or write.
`subscribed` stands for `sub_cloud_` being an active subscription. -/
structure NodeState (α : Type) where
  add_to_octree_ : Bool
  object_id_ : ObjectId
  debug_mode_ : Bool
  dataset_collection_ : Bool
  frame_id_ : String
  object_height_above_workspace_ : α
  subscribed : Bool
  cloud_accumulation_ : CloudAccumulation

/-- Result of running a callback: new state, effects, and how it ended. -/
structure Step (α : Type) where
  state : NodeState α
  actions : List (Action α)
  abort : Option Abort

/-- Result of the loop of `segment`. -/
structure LoopResult (α : Type) where
  object_id_ : ObjectId
  objects : List (Object α)
  actions : List (Action α)
  abort : Option Abort

/-- An input of the dispatch thread: a command on `event_in`, a frame on `input`,
or a reconfiguration. -/
inductive Event (α : Type) where
  | command (data : String) (env : CommandEnv α)
  | frame (msg : PointCloud2) (env : FrameEnv α)
  | config (object_height_above_workspace : α)

/-! ## The callbacks -/

/-- State after the constructor (lines 36-71). The defaults passed for `debug_mode`
and `dataset_collection` are the string literal `"false"`, which converts to the
boolean `true`; `configCallback` has run once with the initial configuration. -/
def NodeState.init (debug_mode dataset_collection : Option Bool)
    (object_height_above_workspace : α) : NodeState α :=
  { add_to_octree_ := false
    object_id_ := 0
    debug_mode_ := debug_mode.getD true
    dataset_collection_ := dataset_collection.getD true
    frame_id_ := ""
    object_height_above_workspace_ := object_height_above_workspace
    subscribed := false
    cloud_accumulation_ := [] }

/-- The part of `configCallback` that touches the node itself (line 384); the other
lines forward tuning parameters to the segmenter. -/
def configCallback (s : NodeState α) (object_height_above_workspace : α) : NodeState α :=
  { s with object_height_above_workspace_ := object_height_above_workspace }

/-- Lines 156-177: label and confidence of cluster `i`. -/
def recognize (ie : IterEnv α) : String × α :=
  if ie.service_exists then
    match ie.service_call with
    | some response => (response.name, response.probability)
    | none => ("unknown", 0)
  else
    ("unknown", 0)

/-- Lines 180-215: the pose of the record, reconciled into the target frame. -/
def reconcilePose (s : NodeState α) (now : Nat) (ie : IterEnv α) (pose0 : PoseStamped α) :
    Except Abort (PoseStamped α) :=
  let pose : PoseStamped α := { pose0 with header := { stamp := now, frame_id := s.frame_id_ } }
  match ie.target_frame_id with
  | some target_frame_id =>
    if target_frame_id != s.frame_id_ then
      let pose1 : PoseStamped α :=
        { pose with header := { stamp := ie.common_time, frame_id := pose.header.frame_id } }
      match ie.transformPose target_frame_id pose1 with
      | .ok pose_transformed => .ok pose_transformed
      | .lookupException =>
        .ok { pose1 with header := { stamp := now, frame_id := pose1.header.frame_id } }
      | .otherTransformException => .error .uncaughtTransformException
    else
      .ok pose
  | none => .ok pose

/-- Body of the loop of `segment` (lines 149-230) for index `i` and box `boxes[i]`,
with the current value of `object_id_`: the completed record and the effects. The
bounding-box message built by `convertBoundingBox` only feeds the recognition request
and the visualiser and is not represented. -/
def segmentIter (sqrt : α → α) (s : NodeState α) (env : SegmentEnv α) (i : Nat)
    (box : BoundingBox α) (object_id : ObjectId) : Except Abort (Object α × List (Action α)) :=
  match env.clusters[i]? with
  | none => .error .undefined
  | some ros_cloud =>
    let label := recognize (env.iter i)
    match getPose sqrt s.object_height_above_workspace_ box with
    | none => .error .undefined
    | some pose0 =>
      match reconcilePose s env.now (env.iter i) pose0 with
      | .error e => .error e
      | .ok pose =>
        let record : Object α :=
          { name := label.1
            probability := label.2
            pose := pose
            pointcloud := ros_cloud
            database_id := object_id }
        .ok (record,
          Action.object record ::
            (if s.dataset_collection_ || s.debug_mode_ then [Action.savePcd record.name]
             else []))

/-- The loop of `segment` over the boxes from index `i` on. A failed iteration ends
the loop with the records and the counter as they are at that point. -/
def segmentLoop (sqrt : α → α) (s : NodeState α) (env : SegmentEnv α) :
    List (BoundingBox α) → Nat → ObjectId → LoopResult α
  | [], _, object_id => { object_id_ := object_id, objects := [], actions := [], abort := none }
  | box :: rest, i, object_id =>
    match segmentIter sqrt s env i box object_id with
    | .error e => { object_id_ := object_id, objects := [], actions := [], abort := some e }
    | .ok (record, acts) =>
      let r := segmentLoop sqrt s env rest (i + 1) (object_id + 1)
      { object_id_ := r.object_id_
        objects := record :: r.objects
        actions := acts ++ r.actions
        abort := r.abort }

/-- The function `SceneSegmentationNode::segment` (lines 121-238). The object list is
published only when the loop runs to its end. -/
def segment (sqrt : α → α) (s : NodeState α) (env : SegmentEnv α) : Step α :=
  let r := segmentLoop sqrt s env env.boxes 0 s.object_id_
  let head : List (Action α) :=
    [Action.pub_workspace_height env.workspace_height, Action.pub_debug env.debug]
  let s1 : NodeState α := { s with object_id_ := r.object_id_ }
  match r.abort with
  | some e => { state := s1, actions := head ++ r.actions, abort := some e }
  | none =>
    { state := s1
      actions := head ++ r.actions ++
        [Action.pub_object_list r.objects, Action.visualize (r.objects.map (·.name))]
      abort := none }

/-- The function `SceneSegmentationNode::findPlane` (lines 257-272). -/
def findPlane (s : NodeState α) (env : PlaneEnv α) : Step α :=
  { state := s
    actions := [Action.pub_workspace_height env.workspace_height, Action.pub_debug env.debug]
    abort := none }

/-- The call `cloud_accumulation_->reset()`. -/
def resetAccumulation (s : NodeState α) : NodeState α :=
  { s with cloud_accumulation_ := [] }

/-- The function `SceneSegmentationNode::pointcloudCallback` (lines 75-119). -/
def pointcloudCallback (sqrt : α → α) (s : NodeState α) (msg : PointCloud2) (env : FrameEnv α) :
    Step α :=
  if s.add_to_octree_ then
    let target_frame_id := env.target_frame_id.getD "base_link"
    let msg1 : PointCloud2 :=
      { msg with header := { stamp := env.common_time, frame_id := msg.header.frame_id } }
    match env.transformPointCloud target_frame_id msg1 with
    | .lookupException => { state := s, actions := [], abort := none }
    | .otherTransformException => { state := s, actions := [], abort := none }
    | .ok msg_transformed =>
      let s1 : NodeState α :=
        { s with
          cloud_accumulation_ := s.cloud_accumulation_ ++ [msg_transformed]
          frame_id_ := msg_transformed.header.frame_id }
      let added : List (Action α) := [Action.addCloud msg_transformed]
      if s1.dataset_collection_ then
        let r := segment sqrt s1 env.segment
        match r.abort with
        | some e => { state := r.state, actions := added ++ r.actions, abort := some e }
        | none =>
          { state := { resetAccumulation r.state with add_to_octree_ := false }
            actions := added ++ r.actions ++
              [Action.reset, Action.pub_event_out "e_add_cloud_stopped"]
            abort := none }
      else
        { state := { s1 with add_to_octree_ := false }
          actions := added ++ [Action.pub_event_out "e_add_cloud_stopped"]
          abort := none }
  else
    { state := s, actions := [], abort := none }

/-- The function `SceneSegmentationNode::eventCallback` (lines 309-356). -/
def eventCallback (sqrt : α → α) (s : NodeState α) (data : String) (env : CommandEnv α) :
    Step α :=
  if data = "e_start" then
    { state := { s with subscribed := true }
      actions := [Action.subscribe, Action.pub_event_out "e_started"]
      abort := none }
  else if data = "e_add_cloud_start" then
    { state := { s with add_to_octree_ := true }, actions := [], abort := none }
  else if data = "e_add_cloud_stop" then
    { state := { s with add_to_octree_ := false }
      actions := [Action.pub_event_out "e_add_cloud_stopped"]
      abort := none }
  else if data = "e_find_plane" then
    let r := findPlane s env.plane
    { state := resetAccumulation r.state
      actions := r.actions ++ [Action.reset, Action.pub_event_out "e_done"]
      abort := none }
  else if data = "e_segment" then
    let r := segment sqrt s env.segment
    match r.abort with
    | some e => { state := r.state, actions := r.actions, abort := some e }
    | none =>
      { state := resetAccumulation r.state
        actions := r.actions ++ [Action.reset, Action.pub_event_out "e_done"]
        abort := none }
  else if data = "e_reset" then
    { state := resetAccumulation s
      actions := [Action.reset, Action.pub_event_out "e_reset"]
      abort := none }
  else if data = "e_stop" then
    { state := resetAccumulation { s with subscribed := false }
      actions := [Action.shutdown, Action.reset, Action.pub_event_out "e_stopped"]
      abort := none }
  else
    { state := s, actions := [], abort := none }

/-- One turn of the dispatch thread (`ros::spin`): a command goes to `eventCallback`,
a frame goes to `pointcloudCallback` when the node is subscribed and is not delivered
otherwise, a reconfiguration goes to `configCallback`. -/
def dispatch (sqrt : α → α) (s : NodeState α) : Event α → Step α
  | .command data env => eventCallback sqrt s data env
  | .frame msg env =>
    if s.subscribed then pointcloudCallback sqrt s msg env
    else { state := s, actions := [], abort := none }
  | .config h => { state := configCallback s h, actions := [], abort := none }

/-- The dispatch thread on a sequence of events. An exception that leaves a callback
ends the process, so the remaining events are not handled. -/
def run (sqrt : α → α) (s : NodeState α) : List (Event α) → Step α
  | [] => { state := s, actions := [], abort := none }
  | e :: rest =>
    let r := dispatch sqrt s e
    match r.abort with
    | some a => { state := r.state, actions := r.actions, abort := some a }
    | none =>
      let r2 := run sqrt r.state rest
      { state := r2.state, actions := r.actions ++ r2.actions, abort := r2.abort }

/-! ## Observations on a trace -/

/-- The status events published on `event_out`, in order. -/
def statusEvents (actions : List (Action α)) : List String :=
  actions.filterMap fun a =>
    match a with
    | .pub_event_out data => some data
    | _ => none

/-- The clouds passed to `addCloud`, in order. -/
def addedClouds (actions : List (Action α)) : List PointCloud2 :=
  actions.filterMap fun a =>
    match a with
    | .addCloud cloud => some cloud
    | _ => none

/-- The object lists published on `object_list`, in order. -/
def objectLists (actions : List (Action α)) : List (List (Object α)) :=
  actions.filterMap fun a =>
    match a with
    | .pub_object_list objects => some objects
    | _ => none

/-- The `database_id` of every object record, in order of creation. -/
def assignedIds (actions : List (Action α)) : List ObjectId :=
  actions.filterMap fun a =>
    match a with
    | .object record => some record.database_id
    | _ => none

/-- The number of segmentation or plane passes started (each publishes the workspace
height first). -/
def passCount (actions : List (Action α)) : Nat :=
  (actions.filterMap fun a =>
    match a with
    | .pub_workspace_height h => some h
    | _ => none).length

/-! ## Concrete inputs -/

/-- A frame from the sensor, in the frame `camera`, with payload `[n]`. -/
def sampleFrame (n : Nat) : PointCloud2 :=
  { header := { stamp := 0, frame_id := "camera" }, data := [n] }

/-- Answers of an iteration in which no recognition service exists and no target
frame is configured. -/
def quietIterEnv : IterEnv α :=
  { service_exists := false
    service_call := none
    target_frame_id := none
    common_time := 0
    transformPose := fun _ pose => .ok pose }

/-- Answers of an iteration in which the parameter `target_frame_id` is `map` and
`transformPose` raises a `tf::TransformException` other than `tf::LookupException`
(for instance `tf::ExtrapolationException`). -/
def extrapolationIterEnv : IterEnv α :=
  { service_exists := false
    service_call := none
    target_frame_id := some "map"
    common_time := 5
    transformPose := fun _ _ => .otherTransformException }

/-- A pass in which the segmenter finds nothing. -/
def emptySegmentEnv : SegmentEnv α :=
  { clusters := []
    boxes := []
    workspace_height := 0
    debug := { header := { stamp := 0, frame_id := "" }, data := [] }
    now := 0
    iter := fun _ => quietIterEnv }

/-- A pass in which the segmenter finds the scenario box, every iteration being
answered by `ie`. -/
def oneBoxSegmentEnv (ie : IterEnv α) : SegmentEnv α :=
  { clusters := [sampleFrame 7]
    boxes := [scenarioBox]
    workspace_height := 0
    debug := { header := { stamp := 0, frame_id := "" }, data := [] }
    now := 9
    iter := fun _ => ie }

/-- A frame whose transform succeeds: the cloud comes back tagged with the target
frame. -/
def okFrameEnv : FrameEnv α :=
  { target_frame_id := none
    common_time := 0
    transformPointCloud := fun target msg =>
      .ok { header := { stamp := msg.header.stamp, frame_id := target }, data := msg.data }
    segment := emptySegmentEnv }

/-- A frame whose transform raises an exception. -/
def failFrameEnv : FrameEnv α :=
  { target_frame_id := none
    common_time := 0
    transformPointCloud := fun _ _ => .otherTransformException
    segment := emptySegmentEnv }

/-- Answers to a command when the segmenter finds nothing. -/
def quietCommandEnv : CommandEnv α :=
  { plane := { workspace_height := 0, debug := { header := { stamp := 0, frame_id := "" }, data := [] } }
    segment := emptySegmentEnv }

/-- Answers to a command when the segmenter finds the scenario box and the
reconciliation of its pose raises a non-lookup transform exception. -/
def extrapolationCommandEnv : CommandEnv α :=
  { plane := { workspace_height := 0, debug := { header := { stamp := 0, frame_id := "" }, data := [] } }
    segment := oneBoxSegmentEnv extrapolationIterEnv }

/-- The node after start, begin of capture and one captured frame, with the debug
and dataset-collection modes switched off. -/
def capturedState (sqrt : α → α) : NodeState α :=
  (run sqrt (NodeState.init (some false) (some false) 0)
    [Event.command "e_start" quietCommandEnv, Event.command "e_add_cloud_start" quietCommandEnv,
      Event.frame (sampleFrame 1) okFrameEnv]).state

/-! ## Comparing two passes -/

section GetPose

theorem getPose_eight (sqrt : α → α) (h : α) (c v0 v1 v2 v3 v4 v5 v6 v7 : Vector3f α) :
    getPose sqrt h ⟨c, [v0, v1, v2, v3, v4, v5, v6, v7]⟩ =
      some
        { header := ⟨0, ""⟩
          pose :=
            { position := ⟨c.x, c.y, (v0.z + v1.z + v2.z + v3.z) / 4 + h⟩
              orientation :=
                (Quaternionf.ofMatrix sqrt
                  ⟨(getPoseAxes sqrt v0 v1 v3 v4).1, (getPoseAxes sqrt v0 v1 v3 v4).2.1,
                    (getPoseAxes sqrt v0 v1 v3 v4).2.2⟩).normalize sqrt } } :=
  rfl

/-- Branch of `ofMatrix` taken when the trace is positive. -/
theorem ofMatrix_trace_pos (sqrt : α → α) (a0 a1 a2 b0 b1 b2 c0 c1 c2 : α)
    (h : 0 < a0 + b1 + c2) :
    Quaternionf.ofMatrix sqrt ⟨⟨a0, a1, a2⟩, ⟨b0, b1, b2⟩, ⟨c0, c1, c2⟩⟩ =
      { x := (b2 - c1) * (1 / 2 / sqrt (a0 + b1 + c2 + 1))
        y := (c0 - a2) * (1 / 2 / sqrt (a0 + b1 + c2 + 1))
        z := (a1 - b0) * (1 / 2 / sqrt (a0 + b1 + c2 + 1))
        w := 1 / 2 * sqrt (a0 + b1 + c2 + 1) } := by
  unfold Quaternionf.ofMatrix
  rw [if_pos (show (Matrix3f.trace ⟨⟨a0, a1, a2⟩, ⟨b0, b1, b2⟩, ⟨c0, c1, c2⟩⟩ : α) > 0 from h)]
  rfl

/-- Branch of `ofMatrix` with non-positive trace and largest diagonal entry 0. -/
theorem ofMatrix_diag0 (sqrt : α → α) (a0 a1 a2 b0 b1 b2 c0 c1 c2 : α)
    (h : ¬ 0 < a0 + b1 + c2) (h1 : ¬ a0 < b1) (h2 : ¬ a0 < c2) :
    Quaternionf.ofMatrix sqrt ⟨⟨a0, a1, a2⟩, ⟨b0, b1, b2⟩, ⟨c0, c1, c2⟩⟩ =
      { x := 1 / 2 * sqrt (a0 - b1 - c2 + 1)
        y := (a1 + b0) * (1 / 2 / sqrt (a0 - b1 - c2 + 1))
        z := (a2 + c0) * (1 / 2 / sqrt (a0 - b1 - c2 + 1))
        w := (b2 - c1) * (1 / 2 / sqrt (a0 - b1 - c2 + 1)) } := by
  unfold Quaternionf.ofMatrix
  rw [if_neg (show ¬ (Matrix3f.trace ⟨⟨a0, a1, a2⟩, ⟨b0, b1, b2⟩, ⟨c0, c1, c2⟩⟩ : α) > 0 from h)]
  have e1 : (if Matrix3f.coeff (⟨⟨a0, a1, a2⟩, ⟨b0, b1, b2⟩, ⟨c0, c1, c2⟩⟩ : Matrix3f α) 1 1 >
      Matrix3f.coeff (⟨⟨a0, a1, a2⟩, ⟨b0, b1, b2⟩, ⟨c0, c1, c2⟩⟩ : Matrix3f α) 0 0
      then (1 : Nat) else 0) = 0 := if_neg h1
  simp only [e1]
  have e2 : (if Matrix3f.coeff (⟨⟨a0, a1, a2⟩, ⟨b0, b1, b2⟩, ⟨c0, c1, c2⟩⟩ : Matrix3f α) 2 2 >
      Matrix3f.coeff (⟨⟨a0, a1, a2⟩, ⟨b0, b1, b2⟩, ⟨c0, c1, c2⟩⟩ : Matrix3f α) 0 0
      then (2 : Nat) else 0) = 0 := if_neg h2
  simp only [e2]
  rfl

/-- Branch of `ofMatrix` with non-positive trace and largest diagonal entry 1. -/
theorem ofMatrix_diag1 (sqrt : α → α) (a0 a1 a2 b0 b1 b2 c0 c1 c2 : α)
    (h : ¬ 0 < a0 + b1 + c2) (h1 : a0 < b1) (h2 : ¬ b1 < c2) :
    Quaternionf.ofMatrix sqrt ⟨⟨a0, a1, a2⟩, ⟨b0, b1, b2⟩, ⟨c0, c1, c2⟩⟩ =
      { x := (b0 + a1) * (1 / 2 / sqrt (b1 - c2 - a0 + 1))
        y := 1 / 2 * sqrt (b1 - c2 - a0 + 1)
        z := (b2 + c1) * (1 / 2 / sqrt (b1 - c2 - a0 + 1))
        w := (c0 - a2) * (1 / 2 / sqrt (b1 - c2 - a0 + 1)) } := by
  unfold Quaternionf.ofMatrix
  rw [if_neg (show ¬ (Matrix3f.trace ⟨⟨a0, a1, a2⟩, ⟨b0, b1, b2⟩, ⟨c0, c1, c2⟩⟩ : α) > 0 from h)]
  have e1 : (if Matrix3f.coeff (⟨⟨a0, a1, a2⟩, ⟨b0, b1, b2⟩, ⟨c0, c1, c2⟩⟩ : Matrix3f α) 1 1 >
      Matrix3f.coeff (⟨⟨a0, a1, a2⟩, ⟨b0, b1, b2⟩, ⟨c0, c1, c2⟩⟩ : Matrix3f α) 0 0
      then (1 : Nat) else 0) = 1 := if_pos h1
  simp only [e1]
  have e2 : (if Matrix3f.coeff (⟨⟨a0, a1, a2⟩, ⟨b0, b1, b2⟩, ⟨c0, c1, c2⟩⟩ : Matrix3f α) 2 2 >
      Matrix3f.coeff (⟨⟨a0, a1, a2⟩, ⟨b0, b1, b2⟩, ⟨c0, c1, c2⟩⟩ : Matrix3f α) 1 1
      then (2 : Nat) else 1) = 1 := if_neg h2
  simp only [e2]
  rfl

/-- Branch of `ofMatrix` with non-positive trace and largest diagonal entry 2. -/
theorem ofMatrix_diag2 (sqrt : α → α) (a0 a1 a2 b0 b1 b2 c0 c1 c2 : α)
    (h : ¬ 0 < a0 + b1 + c2) (h2 : (a0 < b1 ∧ b1 < c2) ∨ (¬ a0 < b1 ∧ a0 < c2)) :
    Quaternionf.ofMatrix sqrt ⟨⟨a0, a1, a2⟩, ⟨b0, b1, b2⟩, ⟨c0, c1, c2⟩⟩ =
      { x := (c0 + a2) * (1 / 2 / sqrt (c2 - a0 - b1 + 1))
        y := (c1 + b2) * (1 / 2 / sqrt (c2 - a0 - b1 + 1))
        z := 1 / 2 * sqrt (c2 - a0 - b1 + 1)
        w := (a1 - b0) * (1 / 2 / sqrt (c2 - a0 - b1 + 1)) } := by
  unfold Quaternionf.ofMatrix
  rw [if_neg (show ¬ (Matrix3f.trace ⟨⟨a0, a1, a2⟩, ⟨b0, b1, b2⟩, ⟨c0, c1, c2⟩⟩ : α) > 0 from h)]
  rcases h2 with ⟨h1, h2⟩ | ⟨h1, h2⟩
  · have e1 : (if Matrix3f.coeff (⟨⟨a0, a1, a2⟩, ⟨b0, b1, b2⟩, ⟨c0, c1, c2⟩⟩ : Matrix3f α) 1 1 >
        Matrix3f.coeff (⟨⟨a0, a1, a2⟩, ⟨b0, b1, b2⟩, ⟨c0, c1, c2⟩⟩ : Matrix3f α) 0 0
        then (1 : Nat) else 0) = 1 := if_pos h1
    simp only [e1]
    have e2 : (if Matrix3f.coeff (⟨⟨a0, a1, a2⟩, ⟨b0, b1, b2⟩, ⟨c0, c1, c2⟩⟩ : Matrix3f α) 2 2 >
        Matrix3f.coeff (⟨⟨a0, a1, a2⟩, ⟨b0, b1, b2⟩, ⟨c0, c1, c2⟩⟩ : Matrix3f α) 1 1
        then (2 : Nat) else 1) = 2 := if_pos h2
    simp only [e2]
    rfl
  · have e1 : (if Matrix3f.coeff (⟨⟨a0, a1, a2⟩, ⟨b0, b1, b2⟩, ⟨c0, c1, c2⟩⟩ : Matrix3f α) 1 1 >
        Matrix3f.coeff (⟨⟨a0, a1, a2⟩, ⟨b0, b1, b2⟩, ⟨c0, c1, c2⟩⟩ : Matrix3f α) 0 0
        then (1 : Nat) else 0) = 0 := if_neg h1
    simp only [e1]
    have e2 : (if Matrix3f.coeff (⟨⟨a0, a1, a2⟩, ⟨b0, b1, b2⟩, ⟨c0, c1, c2⟩⟩ : Matrix3f α) 2 2 >
        Matrix3f.coeff (⟨⟨a0, a1, a2⟩, ⟨b0, b1, b2⟩, ⟨c0, c1, c2⟩⟩ : Matrix3f α) 0 0
        then (2 : Nat) else 0) = 2 := if_pos h2
    simp only [e2]
    rfl

/-- The four branches of `ofMatrix`: the quaternion is a column of the symmetric
4x4 matrix of Shoemake scaled by `1 / (2 * sqrt d)`, where `d ≥ 1` is the diagonal
entry of that column. -/
theorem ofMatrix_cases (sqrt : α → α) (a0 a1 a2 b0 b1 b2 c0 c1 c2 : α) :
    (1 ≤ a0 + b1 + c2 + 1 ∧
      Quaternionf.ofMatrix sqrt ⟨⟨a0, a1, a2⟩, ⟨b0, b1, b2⟩, ⟨c0, c1, c2⟩⟩ =
        { x := (b2 - c1) * (1 / 2 / sqrt (a0 + b1 + c2 + 1))
          y := (c0 - a2) * (1 / 2 / sqrt (a0 + b1 + c2 + 1))
          z := (a1 - b0) * (1 / 2 / sqrt (a0 + b1 + c2 + 1))
          w := 1 / 2 * sqrt (a0 + b1 + c2 + 1) }) ∨
    (1 ≤ a0 - b1 - c2 + 1 ∧
      Quaternionf.ofMatrix sqrt ⟨⟨a0, a1, a2⟩, ⟨b0, b1, b2⟩, ⟨c0, c1, c2⟩⟩ =
        { x := 1 / 2 * sqrt (a0 - b1 - c2 + 1)
          y := (a1 + b0) * (1 / 2 / sqrt (a0 - b1 - c2 + 1))
          z := (a2 + c0) * (1 / 2 / sqrt (a0 - b1 - c2 + 1))
          w := (b2 - c1) * (1 / 2 / sqrt (a0 - b1 - c2 + 1)) }) ∨
    (1 ≤ b1 - c2 - a0 + 1 ∧
      Quaternionf.ofMatrix sqrt ⟨⟨a0, a1, a2⟩, ⟨b0, b1, b2⟩, ⟨c0, c1, c2⟩⟩ =
        { x := (b0 + a1) * (1 / 2 / sqrt (b1 - c2 - a0 + 1))
          y := 1 / 2 * sqrt (b1 - c2 - a0 + 1)
          z := (b2 + c1) * (1 / 2 / sqrt (b1 - c2 - a0 + 1))
          w := (c0 - a2) * (1 / 2 / sqrt (b1 - c2 - a0 + 1)) }) ∨
    (1 ≤ c2 - a0 - b1 + 1 ∧
      Quaternionf.ofMatrix sqrt ⟨⟨a0, a1, a2⟩, ⟨b0, b1, b2⟩, ⟨c0, c1, c2⟩⟩ =
        { x := (c0 + a2) * (1 / 2 / sqrt (c2 - a0 - b1 + 1))
          y := (c1 + b2) * (1 / 2 / sqrt (c2 - a0 - b1 + 1))
          z := 1 / 2 * sqrt (c2 - a0 - b1 + 1)
          w := (a1 - b0) * (1 / 2 / sqrt (c2 - a0 - b1 + 1)) }) := by
  by_cases h : 0 < a0 + b1 + c2
  · exact Or.inl ⟨by linarith, ofMatrix_trace_pos sqrt _ _ _ _ _ _ _ _ _ h⟩
  · by_cases h1 : a0 < b1
    · by_cases h2 : b1 < c2
      · exact Or.inr (Or.inr (Or.inr ⟨by linarith,
          ofMatrix_diag2 sqrt _ _ _ _ _ _ _ _ _ h (Or.inl ⟨h1, h2⟩)⟩))
      · exact Or.inr (Or.inr (Or.inl ⟨by linarith,
          ofMatrix_diag1 sqrt _ _ _ _ _ _ _ _ _ h h1 h2⟩))
    · by_cases h2 : a0 < c2
      · exact Or.inr (Or.inr (Or.inr ⟨by linarith,
          ofMatrix_diag2 sqrt _ _ _ _ _ _ _ _ _ h (Or.inr ⟨h1, h2⟩)⟩))
      · exact Or.inr (Or.inl ⟨by linarith, ofMatrix_diag0 sqrt _ _ _ _ _ _ _ _ _ h h1 h2⟩)

/-- The quaternion built from any real matrix has a coefficient of absolute value at
least one half, so it is not zero. -/
theorem ofMatrix_squaredNorm_pos (m : Matrix3f ℝ) :
    0 < (Quaternionf.ofMatrix Real.sqrt m).squaredNorm := by
  obtain ⟨⟨a0, a1, a2⟩, ⟨b0, b1, b2⟩, ⟨c0, c1, c2⟩⟩ := m
  have key : ∀ (u x y z : ℝ), 1 ≤ u →
      0 < x * x + y * y + z * z + (1 / 2 * √u) * (1 / 2 * √u) := by
    intro u x y z hu
    have hs : 0 < √u := Real.sqrt_pos.2 (by linarith)
    nlinarith [mul_self_nonneg x, mul_self_nonneg y, mul_self_nonneg z, mul_pos hs hs]
  rcases ofMatrix_cases Real.sqrt a0 a1 a2 b0 b1 b2 c0 c1 c2 with
    ⟨hd, e⟩ | ⟨hd, e⟩ | ⟨hd, e⟩ | ⟨hd, e⟩ <;> rw [e] <;> simp only [Quaternionf.squaredNorm]
  · exact key _ _ _ _ hd
  · have := key _ ((a1 + b0) * (1 / 2 / √(a0 - b1 - c2 + 1)))
      ((a2 + c0) * (1 / 2 / √(a0 - b1 - c2 + 1))) ((b2 - c1) * (1 / 2 / √(a0 - b1 - c2 + 1))) hd
    linarith
  · have := key _ ((b0 + a1) * (1 / 2 / √(b1 - c2 - a0 + 1)))
      ((b2 + c1) * (1 / 2 / √(b1 - c2 - a0 + 1))) ((c0 - a2) * (1 / 2 / √(b1 - c2 - a0 + 1))) hd
    linarith
  · have := key _ ((c0 + a2) * (1 / 2 / √(c2 - a0 - b1 + 1)))
      ((c1 + b2) * (1 / 2 / √(c2 - a0 - b1 + 1))) ((a1 - b0) * (1 / 2 / √(c2 - a0 - b1 + 1))) hd
    linarith

/-- Normalising a non-zero real quaternion gives a quaternion of norm one. -/
theorem normalize_squaredNorm (q : Quaternionf ℝ) (h : 0 < q.squaredNorm) :
    (q.normalize Real.sqrt).squaredNorm = 1 := by
  unfold Quaternionf.normalize
  simp only []
  rw [if_pos (show q.squaredNorm > 0 from h)]
  have hs : 0 < √q.squaredNorm := Real.sqrt_pos.2 h
  have hss : √q.squaredNorm * √q.squaredNorm = q.squaredNorm := Real.mul_self_sqrt h.le
  simp only [Quaternionf.squaredNorm] at hs hss ⊢
  field_simp
  linarith

/-- A quaternion whose pairwise coefficient products are the entries of Shoemake's
symmetric matrix of `M` (divided by four) has rotation matrix `M`, and normalising
it changes nothing. -/
theorem rot_from_products (x y z w a0 a1 a2 b0 b1 b2 c0 c1 c2 : ℝ)
    (hxx : 4 * x * x = 1 + a0 - b1 - c2) (hyy : 4 * y * y = 1 - a0 + b1 - c2)
    (hzz : 4 * z * z = 1 - a0 - b1 + c2) (hww : 4 * w * w = 1 + a0 + b1 + c2)
    (hxy : 4 * x * y = b0 + a1) (hxz : 4 * x * z = c0 + a2) (hyz : 4 * y * z = c1 + b2)
    (hwx : 4 * w * x = b2 - c1) (hwy : 4 * w * y = c0 - a2) (hwz : 4 * w * z = a1 - b0) :
    (Quaternionf.normalize Real.sqrt ⟨x, y, z, w⟩).toRotationMatrix =
      ⟨⟨a0, a1, a2⟩, ⟨b0, b1, b2⟩, ⟨c0, c1, c2⟩⟩ := by
  have hn : (⟨x, y, z, w⟩ : Quaternionf ℝ).squaredNorm = 1 := by
    simp only [Quaternionf.squaredNorm]; linarith
  have hq : Quaternionf.normalize Real.sqrt ⟨x, y, z, w⟩ = ⟨x, y, z, w⟩ := by
    unfold Quaternionf.normalize
    simp only [hn, Real.sqrt_one, div_one]
    simp
  rw [hq]
  simp only [Quaternionf.toRotationMatrix, Matrix3f.mk.injEq, Vector3f.mk.injEq]
  refine ⟨⟨?_, ?_, ?_⟩, ⟨?_, ?_, ?_⟩, ⟨?_, ?_, ?_⟩⟩ <;> linarith

theorem scaled_prod (X Y B d s : ℝ) (hs0 : 0 < s) (hs : s * s = d) (K : X * Y = B * d) :
    4 * (X * (1 / 2 / s)) * (Y * (1 / 2 / s)) = B := by
  have h1 : 4 * (X * (1 / 2 / s)) * (Y * (1 / 2 / s)) = X * Y / (s * s) := by
    field_simp; ring
  rw [h1, K, hs, ← hs]
  field_simp

theorem scaled_pivot (Y s : ℝ) (hs0 : 0 < s) :
    4 * (1 / 2 * s) * (Y * (1 / 2 / s)) = Y := by
  field_simp; ring

theorem scaled_pivot_rev (Y s : ℝ) (hs0 : 0 < s) :
    4 * (Y * (1 / 2 / s)) * (1 / 2 * s) = Y := by
  field_simp; ring

set_option maxHeartbeats 4000000 in
/-- For a right-handed orthonormal frame `a, b, c` (columns of `M`), the quaternion
computed by `ofMatrix` and normalised has rotation matrix `M`. -/
theorem rot_core (a0 a1 a2 b0 b1 b2 c0 c1 c2 : ℝ)
    (haa : a0 * a0 + a1 * a1 + a2 * a2 = 1) (hbb : b0 * b0 + b1 * b1 + b2 * b2 = 1)
    (hcc : c0 * c0 + c1 * c1 + c2 * c2 = 1) (hab : a0 * b0 + a1 * b1 + a2 * b2 = 0)
    (hac : a0 * c0 + a1 * c1 + a2 * c2 = 0) (hbc : b0 * c0 + b1 * c1 + b2 * c2 = 0)
    (ca0 : a0 = b1 * c2 - b2 * c1) (ca1 : a1 = b2 * c0 - b0 * c2) (ca2 : a2 = b0 * c1 - b1 * c0)
    (cb0 : b0 = c1 * a2 - c2 * a1) (cb1 : b1 = c2 * a0 - c0 * a2) (cb2 : b2 = c0 * a1 - c1 * a0)
    (cc0 : c0 = a1 * b2 - a2 * b1) (cc1 : c1 = a2 * b0 - a0 * b2) (cc2 : c2 = a0 * b1 - a1 * b0) :
    ((Quaternionf.ofMatrix Real.sqrt ⟨⟨a0, a1, a2⟩, ⟨b0, b1, b2⟩, ⟨c0, c1, c2⟩⟩).normalize
        Real.sqrt).toRotationMatrix = ⟨⟨a0, a1, a2⟩, ⟨b0, b1, b2⟩, ⟨c0, c1, c2⟩⟩ := by
  have r00 : a0 * a0 + b0 * b0 + c0 * c0 = 1 := by
    linear_combination b0 * cb0 + c0 * cc0 - a1 * ca1 - a2 * ca2 + haa
  have r11 : a1 * a1 + b1 * b1 + c1 * c1 = 1 := by
    linear_combination a1 * ca1 + c1 * cc1 - b0 * cb0 - b2 * cb2 + hbb
  have r22 : a2 * a2 + b2 * b2 + c2 * c2 = 1 := by
    linear_combination a2 * ca2 + b2 * cb2 - c0 * cc0 - c1 * cc1 + hcc
  have r01 : a0 * a1 + b0 * b1 + c0 * c1 = 0 := by
    linear_combination a1 * ca0 + b1 * cb0 + c1 * cc0
  have r02 : a0 * a2 + b0 * b2 + c0 * c2 = 0 := by
    linear_combination a2 * ca0 + b2 * cb0 + c2 * cc0
  have r12 : a1 * a2 + b1 * b2 + c1 * c2 = 0 := by
    linear_combination a2 * ca1 + b2 * cb1 + c2 * cc1
  rcases ofMatrix_cases Real.sqrt a0 a1 a2 b0 b1 b2 c0 c1 c2 with
    ⟨hd, e⟩ | ⟨hd, e⟩ | ⟨hd, e⟩ | ⟨hd, e⟩ <;> rw [e]
  · have hs0 : 0 < √(a0 + b1 + c2 + 1) := Real.sqrt_pos.2 (by linarith)
    have hs : √(a0 + b1 + c2 + 1) * √(a0 + b1 + c2 + 1) = a0 + b1 + c2 + 1 :=
      Real.mul_self_sqrt (by linarith)
    apply rot_from_products
    all_goals
      first
        | exact scaled_prod _ _ _ _ _ hs0 hs (by linarith)
        | exact scaled_pivot _ _ hs0
        | linarith
  · have hs0 : 0 < √(a0 - b1 - c2 + 1) := Real.sqrt_pos.2 (by linarith)
    have hs : √(a0 - b1 - c2 + 1) * √(a0 - b1 - c2 + 1) = a0 - b1 - c2 + 1 :=
      Real.mul_self_sqrt (by linarith)
    apply rot_from_products
    all_goals
      first
        | exact scaled_prod _ _ _ _ _ hs0 hs (by linarith)
        | exact scaled_pivot _ _ hs0
        | exact scaled_pivot_rev _ _ hs0
        | linarith
        | (field_simp; ring1)
  · have hs0 : 0 < √(b1 - c2 - a0 + 1) := Real.sqrt_pos.2 (by linarith)
    have hs : √(b1 - c2 - a0 + 1) * √(b1 - c2 - a0 + 1) = b1 - c2 - a0 + 1 :=
      Real.mul_self_sqrt (by linarith)
    apply rot_from_products
    all_goals
      first
        | exact scaled_prod _ _ _ _ _ hs0 hs (by linarith)
        | exact scaled_pivot _ _ hs0
        | exact scaled_pivot_rev _ _ hs0
        | linarith
        | (field_simp; ring1)
  · have hs0 : 0 < √(c2 - a0 - b1 + 1) := Real.sqrt_pos.2 (by linarith)
    have hs : √(c2 - a0 - b1 + 1) * √(c2 - a0 - b1 + 1) = c2 - a0 - b1 + 1 :=
      Real.mul_self_sqrt (by linarith)
    apply rot_from_products
    all_goals
      first
        | exact scaled_prod _ _ _ _ _ hs0 hs (by linarith)
        | exact scaled_pivot _ _ hs0
        | exact scaled_pivot_rev _ _ hs0
        | linarith

theorem squaredNorm_sub_pos (u v : Vector3f ℝ) (h : u ≠ v) : 0 < (u.sub v).squaredNorm := by
  obtain ⟨u0, u1, u2⟩ := u
  obtain ⟨v0, v1, v2⟩ := v
  simp only [Vector3f.sub, Vector3f.squaredNorm]
  by_contra hc
  apply h
  have h0 : (u0 - v0) * (u0 - v0) = 0 := by
    nlinarith [mul_self_nonneg (u0 - v0), mul_self_nonneg (u1 - v1), mul_self_nonneg (u2 - v2)]
  have h1 : (u1 - v1) * (u1 - v1) = 0 := by
    nlinarith [mul_self_nonneg (u0 - v0), mul_self_nonneg (u1 - v1), mul_self_nonneg (u2 - v2)]
  have h2 : (u2 - v2) * (u2 - v2) = 0 := by
    nlinarith [mul_self_nonneg (u0 - v0), mul_self_nonneg (u1 - v1), mul_self_nonneg (u2 - v2)]
  rw [mul_self_eq_zero, sub_eq_zero] at h0 h1 h2
  rw [h0, h1, h2]

theorem squaredNorm_pos_of_norm_ne_zero (v : Vector3f ℝ) (h : v.norm Real.sqrt ≠ 0) :
    0 < v.squaredNorm :=
  Real.sqrt_ne_zero'.1 h

/-- Dividing a non-zero real vector by its norm gives a unit vector. -/
theorem squaredNorm_divScalar_norm (v : Vector3f ℝ) (h : 0 < v.squaredNorm) :
    (v.divScalar (v.norm Real.sqrt)).squaredNorm = 1 := by
  have hs : 0 < √v.squaredNorm := Real.sqrt_pos.2 h
  have hss : √v.squaredNorm * √v.squaredNorm = v.squaredNorm := Real.mul_self_sqrt h.le
  simp only [Vector3f.divScalar, Vector3f.norm]
  simp only [Vector3f.squaredNorm] at hs hss ⊢
  field_simp
  linarith

theorem dot_divScalar (u v : Vector3f ℝ) (s t : ℝ) :
    (u.divScalar s).dot (v.divScalar t) = u.dot v / (s * t) := by
  simp only [Vector3f.divScalar, Vector3f.dot]
  by_cases hs : s = 0
  · simp [hs]
  by_cases ht : t = 0
  · simp [ht]
  field_simp

/-- The first axis of `getPoseAxes` is the longer edge divided by its norm. -/
theorem getPoseAxes_fst (sqrt : α → α) (v0 v1 v3 v4 : Vector3f α) :
    (getPoseAxes sqrt v0 v1 v3 v4).1 =
      (longerEdge sqrt v0 v1 v3).divScalar ((longerEdge sqrt v0 v1 v3).norm sqrt) := by
  simp only [getPoseAxes, longerEdge]
  split_ifs <;> rfl

theorem getPoseAxes_snd (sqrt : α → α) (v0 v1 v3 v4 : Vector3f α) :
    (getPoseAxes sqrt v0 v1 v3 v4).2.1 =
      (getPoseAxes sqrt v0 v1 v3 v4).2.2.cross (getPoseAxes sqrt v0 v1 v3 v4).1 :=
  rfl

theorem getPoseAxes_trd (sqrt : α → α) (v0 v1 v3 v4 : Vector3f α) :
    (getPoseAxes sqrt v0 v1 v3 v4).2.2 = (v4.sub v0).divScalar ((v4.sub v0).norm sqrt) :=
  rfl

/-- The norm of the longer edge is the larger of the two edge norms. -/
theorem longerEdge_norm (v0 v1 v3 : Vector3f ℝ) :
    (longerEdge Real.sqrt v0 v1 v3).norm Real.sqrt =
      max ((v1.sub v0).norm Real.sqrt) ((v3.sub v0).norm Real.sqrt) := by
  simp only [longerEdge]
  split_ifs with h
  · exact (max_eq_left (le_of_lt h)).symm
  · exact (max_eq_right (not_lt.1 h)).symm

/-- A right-handed frame built from two orthogonal unit vectors: the normalised
quaternion of the matrix `[a, c × a, c]` has that matrix as its rotation matrix. -/
theorem rot_frame (a c : Vector3f ℝ) (haa : a.squaredNorm = 1) (hcc : c.squaredNorm = 1)
    (hac : c.dot a = 0) :
    ((Quaternionf.ofMatrix Real.sqrt ⟨a, c.cross a, c⟩).normalize Real.sqrt).toRotationMatrix =
      ⟨a, c.cross a, c⟩ := by
  obtain ⟨a0, a1, a2⟩ := a
  obtain ⟨c0, c1, c2⟩ := c
  simp only [Vector3f.squaredNorm, Vector3f.dot] at haa hcc hac
  simp only [Vector3f.cross]
  apply rot_core
  · exact haa
  · linear_combination (c0 * c0 + c1 * c1 + c2 * c2) * haa + hcc
      - (c0 * a0 + c1 * a1 + c2 * a2) * hac
  · exact hcc
  · ring
  · linarith
  · ring
  · linear_combination (-a0) * hcc + c0 * hac
  · linear_combination (-a1) * hcc + c1 * hac
  · linear_combination (-a2) * hcc + c2 * hac
  · rfl
  · rfl
  · rfl
  · linear_combination (-c0) * haa + a0 * hac
  · linear_combination (-c1) * haa + a1 * hac
  · linear_combination (-c2) * haa + a2 * hac

theorem sqrt_four : √(4 : ℝ) = 2 := by
  rw [show (4 : ℝ) = 2 * 2 by norm_num]
  exact Real.sqrt_mul_self (by norm_num)

/-- The axes of the scenario box. -/
theorem getPoseAxes_scenarioBox :
    getPoseAxes Real.sqrt (⟨0, 0, 0⟩ : Vector3f ℝ) ⟨1, 0, 0⟩ ⟨0, 2, 0⟩ ⟨0, 0, 1⟩ =
      (⟨0, 1, 0⟩, ⟨-1, 0, 0⟩, ⟨0, 0, 1⟩) := by
  have h4 : √(4 : ℝ) = 2 := sqrt_four
  simp [getPoseAxes, Vector3f.sub, Vector3f.norm, Vector3f.squaredNorm, Vector3f.divScalar,
    Vector3f.cross, h4]

theorem longerEdge_scenarioBox :
    longerEdge Real.sqrt (⟨0, 0, 0⟩ : Vector3f ℝ) ⟨1, 0, 0⟩ ⟨0, 2, 0⟩ = ⟨0, 2, 0⟩ := by
  have h4 : √(4 : ℝ) = 2 := sqrt_four
  simp [longerEdge, Vector3f.sub, Vector3f.norm, Vector3f.squaredNorm, h4]

theorem nonDegenerate_scenarioBox :
    NonDegenerate Real.sqrt (⟨0, 0, 0⟩ : Vector3f ℝ) ⟨1, 0, 0⟩ ⟨0, 2, 0⟩ ⟨0, 0, 1⟩ := by
  have h4 : √(4 : ℝ) = 2 := sqrt_four
  refine ⟨by simp, ?_, ?_⟩
  · rw [longerEdge_scenarioBox]
    simp [Vector3f.norm, Vector3f.squaredNorm, h4]
  · rw [longerEdge_scenarioBox]
    simp [Vector3f.sub, Vector3f.cross]

/-- Orthonormality and orientation of the frame `[a, c × a, c]` built from two
orthogonal unit vectors. -/
theorem frame_orthonormal (a c : Vector3f ℝ) (haa : a.squaredNorm = 1)
    (hcc : c.squaredNorm = 1) (hac : c.dot a = 0) :
    (a.dot a = 1 ∧ (c.cross a).dot (c.cross a) = 1 ∧ c.dot c = 1 ∧
      a.dot (c.cross a) = 0 ∧ a.dot c = 0 ∧ (c.cross a).dot c = 0) ∧
    Matrix3f.det ⟨a, c.cross a, c⟩ = 1 := by
  obtain ⟨a0, a1, a2⟩ := a
  obtain ⟨c0, c1, c2⟩ := c
  simp only [Vector3f.squaredNorm, Vector3f.dot, Vector3f.cross, Matrix3f.det] at *
  refine ⟨⟨haa, ?_, hcc, by ring, by linarith, by ring⟩, ?_⟩
  · linear_combination (c0 * c0 + c1 * c1 + c2 * c2) * haa + hcc
      - (c0 * a0 + c1 * a1 + c2 * a2) * hac
  · linear_combination (c0 * c0 + c1 * c1 + c2 * c2) * haa + hcc
      - (c0 * a0 + c1 * a1 + c2 * a2) * hac

theorem mulVec_basis (m : Matrix3f ℝ) :
    m.mulVec ⟨1, 0, 0⟩ = m.col0 ∧ m.mulVec ⟨0, 1, 0⟩ = m.col1 ∧ m.mulVec ⟨0, 0, 1⟩ = m.col2 := by
  obtain ⟨⟨a0, a1, a2⟩, ⟨b0, b1, b2⟩, ⟨c0, c1, c2⟩⟩ := m
  simp [Matrix3f.mulVec, Matrix3f.coeff, Matrix3f.col, Vector3f.coeff]

/-- The general part of the rotation property of `getPose`: for a non-degenerate
corner whose height edge is perpendicular to the longer horizontal edge, the axes
form a proper rotation and the returned quaternion rotates the local axes onto them. -/
theorem frame_rotation_of_getPose (h : ℝ) (c v0 v1 v2 v3 v4 v5 v6 v7 : Vector3f ℝ)
    (hnd : NonDegenerate Real.sqrt v0 v1 v3 v4)
    (hperp : (v4.sub v0).dot (longerEdge Real.sqrt v0 v1 v3) = 0) :
    (((getPoseAxes Real.sqrt v0 v1 v3 v4).1.dot (getPoseAxes Real.sqrt v0 v1 v3 v4).1 = 1 ∧
      (getPoseAxes Real.sqrt v0 v1 v3 v4).2.1.dot (getPoseAxes Real.sqrt v0 v1 v3 v4).2.1 = 1 ∧
      (getPoseAxes Real.sqrt v0 v1 v3 v4).2.2.dot (getPoseAxes Real.sqrt v0 v1 v3 v4).2.2 = 1 ∧
      (getPoseAxes Real.sqrt v0 v1 v3 v4).1.dot (getPoseAxes Real.sqrt v0 v1 v3 v4).2.1 = 0 ∧
      (getPoseAxes Real.sqrt v0 v1 v3 v4).1.dot (getPoseAxes Real.sqrt v0 v1 v3 v4).2.2 = 0 ∧
      (getPoseAxes Real.sqrt v0 v1 v3 v4).2.1.dot (getPoseAxes Real.sqrt v0 v1 v3 v4).2.2 = 0) ∧
      Matrix3f.det ⟨(getPoseAxes Real.sqrt v0 v1 v3 v4).1, (getPoseAxes Real.sqrt v0 v1 v3 v4).2.1,
        (getPoseAxes Real.sqrt v0 v1 v3 v4).2.2⟩ = 1) ∧
    ∃ pose, getPose Real.sqrt h ⟨c, [v0, v1, v2, v3, v4, v5, v6, v7]⟩ = some pose ∧
      pose.pose.orientation.rotate ⟨1, 0, 0⟩ = (getPoseAxes Real.sqrt v0 v1 v3 v4).1 ∧
      pose.pose.orientation.rotate ⟨0, 1, 0⟩ = (getPoseAxes Real.sqrt v0 v1 v3 v4).2.1 ∧
      pose.pose.orientation.rotate ⟨0, 0, 1⟩ = (getPoseAxes Real.sqrt v0 v1 v3 v4).2.2 := by
  obtain ⟨h40, hlong, -⟩ := hnd
  have h1 : (getPoseAxes Real.sqrt v0 v1 v3 v4).1.squaredNorm = 1 := by
    rw [getPoseAxes_fst]
    exact squaredNorm_divScalar_norm _ (squaredNorm_pos_of_norm_ne_zero _ hlong)
  have h3 : (getPoseAxes Real.sqrt v0 v1 v3 v4).2.2.squaredNorm = 1 := by
    rw [getPoseAxes_trd]
    exact squaredNorm_divScalar_norm _ (squaredNorm_sub_pos _ _ h40)
  have h13 : (getPoseAxes Real.sqrt v0 v1 v3 v4).2.2.dot (getPoseAxes Real.sqrt v0 v1 v3 v4).1
      = 0 := by
    rw [getPoseAxes_fst, getPoseAxes_trd, dot_divScalar, hperp, zero_div]
  have h2 := getPoseAxes_snd Real.sqrt v0 v1 v3 v4
  refine ⟨?_, _, getPose_eight Real.sqrt h c v0 v1 v2 v3 v4 v5 v6 v7, ?_⟩
  · rw [h2]
    exact frame_orthonormal _ _ h1 h3 h13
  · simp only [Quaternionf.rotate]
    rw [h2, rot_frame _ _ h1 h3 h13]
    exact mulVec_basis _

end GetPose
/-! ## Facts about the callbacks -/

section Node

theorem statusEvents_append (a b : List (Action α)) :
    statusEvents (a ++ b) = statusEvents a ++ statusEvents b := by
  simp [statusEvents, List.filterMap_append]

theorem addedClouds_append (a b : List (Action α)) :
    addedClouds (a ++ b) = addedClouds a ++ addedClouds b := by
  simp [addedClouds, List.filterMap_append]

theorem objectLists_append (a b : List (Action α)) :
    objectLists (a ++ b) = objectLists a ++ objectLists b := by
  simp [objectLists, List.filterMap_append]

theorem assignedIds_append (a b : List (Action α)) :
    assignedIds (a ++ b) = assignedIds a ++ assignedIds b := by
  simp [assignedIds, List.filterMap_append]

/-- Effects of one completed iteration: the record marker and possibly a saved file. -/
theorem segmentIter_actions (sqrt : α → α) (s : NodeState α) (env : SegmentEnv α) (i : Nat)
    (box : BoundingBox α) (id : Nat) (record : Object α) (acts : List (Action α))
    (h : segmentIter sqrt s env i box id = .ok (record, acts)) :
    record.database_id = id ∧ statusEvents acts = [] ∧ addedClouds acts = [] ∧
      objectLists acts = [] ∧ assignedIds acts = [id] := by
  unfold segmentIter at h
  split at h
  · cases h
  · split at h
    · cases h
    · split at h
      · cases h
      · simp only [Except.ok.injEq, Prod.mk.injEq] at h
        obtain ⟨h1, h2⟩ := h
        subst h1 h2
        split_ifs <;> simp [statusEvents, addedClouds, objectLists, assignedIds]

/-- Effects of the loop of `segment`: no status event, no cloud added, no list
published, and the ids handed out are the consecutive values of the counter. -/
theorem segmentLoop_trace (sqrt : α → α) (s : NodeState α) (env : SegmentEnv α)
    (boxes : List (BoundingBox α)) :
    ∀ (i id : Nat),
      statusEvents (segmentLoop sqrt s env boxes i id).actions = [] ∧
      addedClouds (segmentLoop sqrt s env boxes i id).actions = [] ∧
      objectLists (segmentLoop sqrt s env boxes i id).actions = [] ∧
      ∃ k, (segmentLoop sqrt s env boxes i id).object_id_ = id + k ∧
        assignedIds (segmentLoop sqrt s env boxes i id).actions = List.range' id k := by
  induction boxes with
  | nil =>
    intro i id
    exact ⟨rfl, rfl, rfl, 0, rfl, rfl⟩
  | cons box rest ih =>
    intro i id
    unfold segmentLoop
    split
    · exact ⟨rfl, rfl, rfl, 0, rfl, rfl⟩
    · rename_i record acts hit
      obtain ⟨-, h1, h2, h3, h4⟩ := segmentIter_actions sqrt s env i box id record acts hit
      obtain ⟨g1, g2, g3, k, g4, g5⟩ := ih (i + 1) (id + 1)
      simp only [statusEvents_append, addedClouds_append, objectLists_append,
        assignedIds_append, h1, h2, h3, h4, g1, g2, g3, g5, g4, List.nil_append]
      refine ⟨trivial, trivial, trivial, k + 1, ?_, ?_⟩
      · exact (Nat.add_assoc id 1 k).trans (by rw [Nat.add_comm 1 k])
      · simp [List.range'_succ]

/-- Effects of `segment`: no status event, no cloud added, consecutive ids. -/
theorem segment_trace (sqrt : α → α) (s : NodeState α) (env : SegmentEnv α) :
    statusEvents (segment sqrt s env).actions = [] ∧
    addedClouds (segment sqrt s env).actions = [] ∧
    ∃ k, (segment sqrt s env).state.object_id_ = s.object_id_ + k ∧
      assignedIds (segment sqrt s env).actions = List.range' s.object_id_ k := by
  obtain ⟨g1, g2, -, k, g4, g5⟩ := segmentLoop_trace sqrt s env env.boxes 0 s.object_id_
  unfold segment
  simp only []
  split
  · simp only [statusEvents_append, addedClouds_append, assignedIds_append, g1, g2, g5]
    exact ⟨rfl, rfl, k, g4, by simp [assignedIds]⟩
  · simp only [statusEvents_append, addedClouds_append, assignedIds_append, g1, g2, g5]
    exact ⟨rfl, rfl, k, g4, by simp [assignedIds]⟩

/-- The fields of the state that `segment` leaves alone. -/
theorem segment_state (sqrt : α → α) (s : NodeState α) (env : SegmentEnv α) :
    (segment sqrt s env).state = { s with object_id_ := (segment sqrt s env).state.object_id_ } := by
  unfold segment
  simp only []
  split <;> rfl

/-- Ids handed out by `pointcloudCallback`. -/
theorem pointcloudCallback_ids (sqrt : α → α) (s : NodeState α) (msg : PointCloud2)
    (env : FrameEnv α) :
    ∃ k, (pointcloudCallback sqrt s msg env).state.object_id_ = s.object_id_ + k ∧
      assignedIds (pointcloudCallback sqrt s msg env).actions = List.range' s.object_id_ k := by
  unfold pointcloudCallback
  split
  · simp only []
    split
    · exact ⟨0, rfl, rfl⟩
    · exact ⟨0, rfl, rfl⟩
    · rename_i m hm
      split
      · obtain ⟨-, -, k, g4, g5⟩ := segment_trace sqrt
          { s with cloud_accumulation_ := s.cloud_accumulation_ ++ [m],
                   frame_id_ := m.header.frame_id } env.segment
        split
        · exact ⟨k, g4, by simp only [assignedIds_append, g5]; simp [assignedIds]⟩
        · exact ⟨k, g4, by simp only [assignedIds_append, g5]; simp [assignedIds]⟩
      · exact ⟨0, rfl, rfl⟩
  · exact ⟨0, rfl, rfl⟩

/-- Ids handed out by `eventCallback`; only `e_segment` can change the counter. -/
theorem eventCallback_ids (sqrt : α → α) (s : NodeState α) (data : String)
    (env : CommandEnv α) :
    (data ≠ "e_segment" → (eventCallback sqrt s data env).state.object_id_ = s.object_id_) ∧
    ∃ k, (eventCallback sqrt s data env).state.object_id_ = s.object_id_ + k ∧
      assignedIds (eventCallback sqrt s data env).actions = List.range' s.object_id_ k := by
  unfold eventCallback
  split_ifs with h1 h2 h3 h4 h5 h6 h7
  · exact ⟨fun _ => rfl, 0, rfl, rfl⟩
  · exact ⟨fun _ => rfl, 0, rfl, rfl⟩
  · exact ⟨fun _ => rfl, 0, rfl, rfl⟩
  · exact ⟨fun _ => rfl, 0, rfl, rfl⟩
  · refine ⟨fun hne => absurd h5 hne, ?_⟩
    obtain ⟨-, -, k, g4, g5⟩ := segment_trace sqrt s env.segment
    simp only []
    split
    · exact ⟨k, g4, g5⟩
    · exact ⟨k, g4, by simp only [assignedIds_append, g5]; simp [assignedIds]⟩
  · exact ⟨fun _ => rfl, 0, rfl, rfl⟩
  · exact ⟨fun _ => rfl, 0, rfl, rfl⟩
  · exact ⟨fun _ => rfl, 0, rfl, rfl⟩

/-- Ids handed out by one turn of the dispatch thread. -/
theorem dispatch_ids (sqrt : α → α) (s : NodeState α) (e : Event α) :
    ∃ k, (dispatch sqrt s e).state.object_id_ = s.object_id_ + k ∧
      assignedIds (dispatch sqrt s e).actions = List.range' s.object_id_ k := by
  cases e with
  | command data env => exact (eventCallback_ids sqrt s data env).2
  | frame msg env =>
    simp only [dispatch]
    split
    · exact pointcloudCallback_ids sqrt s msg env
    · exact ⟨0, rfl, rfl⟩
  | config h => exact ⟨0, rfl, rfl⟩

/-- Ids handed out over a whole run: consecutive values from the initial counter. -/
theorem run_ids (sqrt : α → α) (events : List (Event α)) :
    ∀ s : NodeState α,
      ∃ k, (run sqrt s events).state.object_id_ = s.object_id_ + k ∧
        assignedIds (run sqrt s events).actions = List.range' s.object_id_ k := by
  induction events with
  | nil => intro s; exact ⟨0, rfl, rfl⟩
  | cons e rest ih =>
    intro s
    obtain ⟨k, g1, g2⟩ := dispatch_ids sqrt s e
    unfold run
    simp only []
    split
    · exact ⟨k, g1, g2⟩
    · obtain ⟨k2, f1, f2⟩ := ih (dispatch sqrt s e).state
      refine ⟨k + k2, ?_, ?_⟩
      · show (run sqrt (dispatch sqrt s e).state rest).state.object_id_ = s.object_id_ + (k + k2)
        rw [f1, g1]
        exact Nat.add_assoc _ _ _
      · show assignedIds ((dispatch sqrt s e).actions ++
            (run sqrt (dispatch sqrt s e).state rest).actions) = _
        rw [assignedIds_append, g2, f2, g1]
        have h := List.range'_append s.object_id_ k k2 1
        rw [Nat.one_mul] at h
        rw [h, Nat.add_comm k2 k]

/-- The status events of every command whose handler returns normally, and of a
`segment` command whose pass is aborted. -/
theorem eventCallback_status (sqrt : α → α) (s : NodeState α) (data : String)
    (env : CommandEnv α) :
    (data = "e_start" → statusEvents (eventCallback sqrt s data env).actions = ["e_started"]) ∧
    (data = "e_add_cloud_start" → statusEvents (eventCallback sqrt s data env).actions = [] ∧
      (eventCallback sqrt s data env).state.add_to_octree_ = true) ∧
    (data = "e_add_cloud_stop" →
      statusEvents (eventCallback sqrt s data env).actions = ["e_add_cloud_stopped"] ∧
      (eventCallback sqrt s data env).state.add_to_octree_ = false) ∧
    (data = "e_find_plane" → statusEvents (eventCallback sqrt s data env).actions = ["e_done"]) ∧
    (data = "e_segment" →
      ((segment sqrt s env.segment).abort = none →
        statusEvents (eventCallback sqrt s data env).actions = ["e_done"]) ∧
      ((segment sqrt s env.segment).abort ≠ none →
        statusEvents (eventCallback sqrt s data env).actions = [])) ∧
    (data = "e_reset" → statusEvents (eventCallback sqrt s data env).actions = ["e_reset"]) ∧
    (data = "e_stop" → statusEvents (eventCallback sqrt s data env).actions = ["e_stopped"]) ∧
    (data ∉ ["e_start", "e_add_cloud_start", "e_add_cloud_stop", "e_find_plane", "e_segment",
        "e_reset", "e_stop"] →
      (eventCallback sqrt s data env) = { state := s, actions := [], abort := none }) := by
  have hseg := (segment_trace sqrt s env.segment).1
  refine ⟨?_, ?_, ?_, ?_, ?_, ?_, ?_, ?_⟩
  · rintro rfl; rfl
  · rintro rfl; exact ⟨rfl, rfl⟩
  · rintro rfl; exact ⟨rfl, rfl⟩
  · rintro rfl; rfl
  · rintro rfl
    have e : eventCallback sqrt s "e_segment" env =
        match (segment sqrt s env.segment).abort with
        | some e => { state := (segment sqrt s env.segment).state,
                      actions := (segment sqrt s env.segment).actions, abort := some e }
        | none =>
          { state := resetAccumulation (segment sqrt s env.segment).state
            actions := (segment sqrt s env.segment).actions ++
              [Action.reset, Action.pub_event_out "e_done"]
            abort := none } := rfl
    rw [e]
    constructor
    · intro h
      rw [h]
      simp only [statusEvents_append, hseg]
      rfl
    · intro h
      split
      · exact hseg
      · rename_i h2
        exact absurd h2 h
  · rintro rfl; rfl
  · rintro rfl; rfl
  · intro h
    simp only [List.mem_cons, List.mem_singleton, List.not_mem_nil, or_false, not_or] at h
    obtain ⟨h1, h2, h3, h4, h5, h6, h7⟩ := h
    unfold eventCallback
    simp only [h1, h2, h3, h4, h5, h6, h7, if_false]

/-- A frame whose transform succeeds while capturing: it is passed to `addCloud`, and
when the handler returns normally capturing is switched off and one status event is
published. -/
theorem pointcloudCallback_ok (sqrt : α → α) (s : NodeState α) (msg : PointCloud2)
    (env : FrameEnv α) (m : PointCloud2) (hcap : s.add_to_octree_ = true)
    (hok : env.transformPointCloud (env.target_frame_id.getD "base_link")
      ⟨⟨env.common_time, msg.header.frame_id⟩, msg.data⟩ = .ok m) :
    addedClouds (pointcloudCallback sqrt s msg env).actions = [m] ∧
    ((pointcloudCallback sqrt s msg env).abort = none →
      (pointcloudCallback sqrt s msg env).state.add_to_octree_ = false ∧
      (pointcloudCallback sqrt s msg env).state.subscribed = s.subscribed ∧
      statusEvents (pointcloudCallback sqrt s msg env).actions = ["e_add_cloud_stopped"]) := by
  unfold pointcloudCallback
  rw [if_pos hcap]
  simp only [hok]
  split
  · obtain ⟨g1, g2, -⟩ := segment_trace sqrt
      { s with cloud_accumulation_ := s.cloud_accumulation_ ++ [m],
               frame_id_ := m.header.frame_id } env.segment
    have g3 := segment_state sqrt
      { s with cloud_accumulation_ := s.cloud_accumulation_ ++ [m],
               frame_id_ := m.header.frame_id } env.segment
    split
    · refine ⟨?_, fun h => by cases h⟩
      simp only [addedClouds_append, g2]
      rfl
    · refine ⟨?_, fun _ => ⟨rfl, ?_, ?_⟩⟩
      · simp only [addedClouds_append, g2]
        rfl
      · simp only [resetAccumulation]
        rw [g3]
      · simp only [statusEvents_append, g1]
        rfl
  · exact ⟨rfl, fun _ => ⟨rfl, rfl, rfl⟩⟩

/-- A frame received while not capturing changes nothing. -/
theorem pointcloudCallback_idle (sqrt : α → α) (s : NodeState α) (msg : PointCloud2)
    (env : FrameEnv α) (hcap : s.add_to_octree_ = false) :
    pointcloudCallback sqrt s msg env = { state := s, actions := [], abort := none } := by
  unfold pointcloudCallback
  simp [hcap]

/-- Frames received while not capturing change nothing. -/
theorem run_frames_idle (sqrt : α → α) (s : NodeState α) (hcap : s.add_to_octree_ = false)
    (frames : List (PointCloud2 × FrameEnv α)) :
    run sqrt s (frames.map fun p => Event.frame p.1 p.2) =
      { state := s, actions := [], abort := none } := by
  induction frames with
  | nil => rfl
  | cons p rest ih =>
    have hd : dispatch sqrt s (Event.frame p.1 p.2) = { state := s, actions := [], abort := none } := by
      simp only [dispatch]
      split
      · exact pointcloudCallback_idle sqrt s p.1 p.2 hcap
      · rfl
    simp only [List.map_cons]
    unfold run
    simp only [hd, ih, List.append_nil]

/-- The reconciliation of a pose, case by case (lines 184-215). -/
theorem reconcilePose_cases (s : NodeState α) (now : Nat) (ie : IterEnv α)
    (pose0 : PoseStamped α) :
    (ie.target_frame_id = none →
      reconcilePose s now ie pose0 = .ok ⟨⟨now, s.frame_id_⟩, pose0.pose⟩) ∧
    (ie.target_frame_id = some s.frame_id_ →
      reconcilePose s now ie pose0 = .ok ⟨⟨now, s.frame_id_⟩, pose0.pose⟩) ∧
    (∀ target, ie.target_frame_id = some target → target ≠ s.frame_id_ →
      (∀ p, ie.transformPose target ⟨⟨ie.common_time, s.frame_id_⟩, pose0.pose⟩ = .ok p →
        reconcilePose s now ie pose0 = .ok p) ∧
      (ie.transformPose target ⟨⟨ie.common_time, s.frame_id_⟩, pose0.pose⟩ = .lookupException →
        reconcilePose s now ie pose0 = .ok ⟨⟨now, s.frame_id_⟩, pose0.pose⟩) ∧
      (ie.transformPose target ⟨⟨ie.common_time, s.frame_id_⟩, pose0.pose⟩
          = .otherTransformException →
        reconcilePose s now ie pose0 = .error .uncaughtTransformException)) := by
  unfold reconcilePose
  refine ⟨?_, ?_, ?_⟩
  · intro h
    simp [h]
  · intro h
    simp [h]
  · intro target h hne
    simp only [h]
    have hb : (target != s.frame_id_) = true := by simpa using hne
    simp only [hb, if_true]
    refine ⟨?_, ?_, ?_⟩
    · intro p hp
      simp only [hp]
    · intro hp
      simp only [hp]
    · intro hp
      simp only [hp]

end Node
/-! ## The claims about `getPose` -/

section GetPoseClaims

/-- C7: for every non-degenerate bounding box with 8 vertices, the quaternion built
from the matrix `[n1, n2, n3]` is not zero before normalisation, and the orientation
`(x, y, z, w)` returned by `getPose` is a unit quaternion, `x^2 + y^2 + z^2 + w^2 = 1`,
over exact real arithmetic. -/
theorem getPose_orientation_unit (h : ℝ) (c v0 v1 v2 v3 v4 v5 v6 v7 : Vector3f ℝ)
    (_hnd : NonDegenerate Real.sqrt v0 v1 v3 v4) :
    Quaternionf.ofMatrix Real.sqrt
        ⟨(getPoseAxes Real.sqrt v0 v1 v3 v4).1, (getPoseAxes Real.sqrt v0 v1 v3 v4).2.1,
          (getPoseAxes Real.sqrt v0 v1 v3 v4).2.2⟩ ≠ ⟨0, 0, 0, 0⟩ ∧
    ∃ pose, getPose Real.sqrt h ⟨c, [v0, v1, v2, v3, v4, v5, v6, v7]⟩ = some pose ∧
      pose.pose.orientation.x ^ 2 + pose.pose.orientation.y ^ 2 + pose.pose.orientation.z ^ 2
        + pose.pose.orientation.w ^ 2 = 1 := by
  have hpos := ofMatrix_squaredNorm_pos
    ⟨(getPoseAxes Real.sqrt v0 v1 v3 v4).1, (getPoseAxes Real.sqrt v0 v1 v3 v4).2.1,
      (getPoseAxes Real.sqrt v0 v1 v3 v4).2.2⟩
  refine ⟨?_, _, getPose_eight Real.sqrt h c v0 v1 v2 v3 v4 v5 v6 v7, ?_⟩
  · intro h0
    rw [h0] at hpos
    simp [Quaternionf.squaredNorm] at hpos
  · have hu := normalize_squaredNorm _ hpos
    simp only [Quaternionf.squaredNorm] at hu
    simp only [pow_two]
    exact hu

/-- Witness of C7 on the scenario box. -/
theorem getPose_orientation_unit_witness :
    NonDegenerate Real.sqrt (⟨0, 0, 0⟩ : Vector3f ℝ) ⟨1, 0, 0⟩ ⟨0, 2, 0⟩ ⟨0, 0, 1⟩ ∧
    ∃ pose, getPose Real.sqrt 0 (scenarioBox : BoundingBox ℝ) = some pose ∧
      pose.pose.orientation.x ^ 2 + pose.pose.orientation.y ^ 2 + pose.pose.orientation.z ^ 2
        + pose.pose.orientation.w ^ 2 = 1 :=
  ⟨nonDegenerate_scenarioBox,
    (getPose_orientation_unit 0 ⟨1 / 2, 1, 1 / 2⟩ ⟨0, 0, 0⟩ ⟨1, 0, 0⟩ ⟨1, 2, 0⟩ ⟨0, 2, 0⟩ ⟨0, 0, 1⟩
      ⟨1, 0, 1⟩ ⟨1, 2, 1⟩ ⟨0, 2, 1⟩ nonDegenerate_scenarioBox).2⟩

/-- C8: for every non-degenerate bounding box, the axes computed by `getPose` are
`n3 = normalize(vertex4 - vertex0)` (a unit vector), `n1 = normalize` of the longer of
`vertex1 - vertex0` and `vertex3 - vertex0` (a unit vector; the edge used has the
larger of the two norms), and `n2 = n3 × n1`; the returned orientation is the
normalised quaternion of the matrix `[n1, n2, n3]`; and for the box vertex0=(0,0,0),
vertex1=(1,0,0), vertex3=(0,2,0), vertex4=(0,0,1) the axes are `n1 = (0,1,0)`,
`n2 = (-1,0,0)`, `n3 = (0,0,1)`. -/
theorem getPose_axes (h : ℝ) (c v0 v1 v2 v3 v4 v5 v6 v7 : Vector3f ℝ)
    (hnd : NonDegenerate Real.sqrt v0 v1 v3 v4) :
    ((getPoseAxes Real.sqrt v0 v1 v3 v4).2.2 =
        (v4.sub v0).divScalar ((v4.sub v0).norm Real.sqrt) ∧
      (getPoseAxes Real.sqrt v0 v1 v3 v4).2.2.squaredNorm = 1) ∧
    ((getPoseAxes Real.sqrt v0 v1 v3 v4).1 =
        (longerEdge Real.sqrt v0 v1 v3).divScalar ((longerEdge Real.sqrt v0 v1 v3).norm Real.sqrt) ∧
      (getPoseAxes Real.sqrt v0 v1 v3 v4).1.squaredNorm = 1 ∧
      (longerEdge Real.sqrt v0 v1 v3 = v1.sub v0 ∨ longerEdge Real.sqrt v0 v1 v3 = v3.sub v0) ∧
      (longerEdge Real.sqrt v0 v1 v3).norm Real.sqrt =
        max ((v1.sub v0).norm Real.sqrt) ((v3.sub v0).norm Real.sqrt)) ∧
    (getPoseAxes Real.sqrt v0 v1 v3 v4).2.1 =
      (getPoseAxes Real.sqrt v0 v1 v3 v4).2.2.cross (getPoseAxes Real.sqrt v0 v1 v3 v4).1 ∧
    (∃ pose, getPose Real.sqrt h ⟨c, [v0, v1, v2, v3, v4, v5, v6, v7]⟩ = some pose ∧
      pose.pose.orientation =
        (Quaternionf.ofMatrix Real.sqrt
          ⟨(getPoseAxes Real.sqrt v0 v1 v3 v4).1, (getPoseAxes Real.sqrt v0 v1 v3 v4).2.1,
            (getPoseAxes Real.sqrt v0 v1 v3 v4).2.2⟩).normalize Real.sqrt) ∧
    getPoseAxes Real.sqrt (⟨0, 0, 0⟩ : Vector3f ℝ) ⟨1, 0, 0⟩ ⟨0, 2, 0⟩ ⟨0, 0, 1⟩ =
      (⟨0, 1, 0⟩, ⟨-1, 0, 0⟩, ⟨0, 0, 1⟩) := by
  obtain ⟨h40, hlong, -⟩ := hnd
  refine ⟨⟨rfl, ?_⟩, ⟨getPoseAxes_fst _ _ _ _ _, ?_, ?_, longerEdge_norm _ _ _⟩, rfl,
    ⟨_, getPose_eight Real.sqrt h c v0 v1 v2 v3 v4 v5 v6 v7, rfl⟩, getPoseAxes_scenarioBox⟩
  · rw [getPoseAxes_trd]
    exact squaredNorm_divScalar_norm _ (squaredNorm_sub_pos _ _ h40)
  · rw [getPoseAxes_fst]
    exact squaredNorm_divScalar_norm _ (squaredNorm_pos_of_norm_ne_zero _ hlong)
  · simp only [longerEdge]
    split_ifs
    · exact Or.inl rfl
    · exact Or.inr rfl

/-- Witness of C8 on the scenario box: the first axis is a unit vector. -/
theorem getPose_axes_witness :
    NonDegenerate Real.sqrt (⟨0, 0, 0⟩ : Vector3f ℝ) ⟨1, 0, 0⟩ ⟨0, 2, 0⟩ ⟨0, 0, 1⟩ ∧
    (getPoseAxes Real.sqrt (⟨0, 0, 0⟩ : Vector3f ℝ) ⟨1, 0, 0⟩ ⟨0, 2, 0⟩ ⟨0, 0, 1⟩).1.squaredNorm
      = 1 :=
  ⟨nonDegenerate_scenarioBox,
    (getPose_axes 0 ⟨1 / 2, 1, 1 / 2⟩ ⟨0, 0, 0⟩ ⟨1, 0, 0⟩ ⟨1, 2, 0⟩ ⟨0, 2, 0⟩ ⟨0, 0, 1⟩
      ⟨1, 0, 1⟩ ⟨1, 2, 1⟩ ⟨0, 2, 1⟩ nonDegenerate_scenarioBox).2.1.2.1⟩

/-- C9: for every non-degenerate bounding box whose height edge `vertex4 - vertex0` is
perpendicular to its longer horizontal edge, the matrix with columns `[n1, n2, n3]`
built by `getPose` is orthonormal with determinant `+1`, and the rotation represented
by the returned quaternion maps `(1,0,0)`, `(0,1,0)`, `(0,0,1)` to `n1`, `n2`, `n3`;
for the box vertex0=(0,0,0), vertex1=(1,0,0), vertex3=(0,2,0), vertex4=(0,0,1) the
returned quaternion rotates `(0,0,1)` to `(0,0,1)` (exact real arithmetic). -/
theorem getPose_rotation (h : ℝ) (c v0 v1 v2 v3 v4 v5 v6 v7 : Vector3f ℝ)
    (hnd : NonDegenerate Real.sqrt v0 v1 v3 v4)
    (hperp : (v4.sub v0).dot (longerEdge Real.sqrt v0 v1 v3) = 0) :
    ((((getPoseAxes Real.sqrt v0 v1 v3 v4).1.dot (getPoseAxes Real.sqrt v0 v1 v3 v4).1 = 1 ∧
      (getPoseAxes Real.sqrt v0 v1 v3 v4).2.1.dot (getPoseAxes Real.sqrt v0 v1 v3 v4).2.1 = 1 ∧
      (getPoseAxes Real.sqrt v0 v1 v3 v4).2.2.dot (getPoseAxes Real.sqrt v0 v1 v3 v4).2.2 = 1 ∧
      (getPoseAxes Real.sqrt v0 v1 v3 v4).1.dot (getPoseAxes Real.sqrt v0 v1 v3 v4).2.1 = 0 ∧
      (getPoseAxes Real.sqrt v0 v1 v3 v4).1.dot (getPoseAxes Real.sqrt v0 v1 v3 v4).2.2 = 0 ∧
      (getPoseAxes Real.sqrt v0 v1 v3 v4).2.1.dot (getPoseAxes Real.sqrt v0 v1 v3 v4).2.2 = 0) ∧
      Matrix3f.det ⟨(getPoseAxes Real.sqrt v0 v1 v3 v4).1, (getPoseAxes Real.sqrt v0 v1 v3 v4).2.1,
        (getPoseAxes Real.sqrt v0 v1 v3 v4).2.2⟩ = 1) ∧
    ∃ pose, getPose Real.sqrt h ⟨c, [v0, v1, v2, v3, v4, v5, v6, v7]⟩ = some pose ∧
      pose.pose.orientation.rotate ⟨1, 0, 0⟩ = (getPoseAxes Real.sqrt v0 v1 v3 v4).1 ∧
      pose.pose.orientation.rotate ⟨0, 1, 0⟩ = (getPoseAxes Real.sqrt v0 v1 v3 v4).2.1 ∧
      pose.pose.orientation.rotate ⟨0, 0, 1⟩ = (getPoseAxes Real.sqrt v0 v1 v3 v4).2.2) ∧
    ∀ (h0 : ℝ) (c0 u2 u5 u6 u7 : Vector3f ℝ),
      ∃ pose, getPose Real.sqrt h0
          ⟨c0, [⟨0, 0, 0⟩, ⟨1, 0, 0⟩, u2, ⟨0, 2, 0⟩, ⟨0, 0, 1⟩, u5, u6, u7]⟩ = some pose ∧
        pose.pose.orientation.rotate ⟨0, 0, 1⟩ = ⟨0, 0, 1⟩ := by
  refine ⟨frame_rotation_of_getPose h c v0 v1 v2 v3 v4 v5 v6 v7 hnd hperp, ?_⟩
  intro h0 c0 u2 u5 u6 u7
  have hp : ((⟨0, 0, 1⟩ : Vector3f ℝ).sub ⟨0, 0, 0⟩).dot
      (longerEdge Real.sqrt (⟨0, 0, 0⟩ : Vector3f ℝ) ⟨1, 0, 0⟩ ⟨0, 2, 0⟩) = 0 := by
    rw [longerEdge_scenarioBox]
    simp [Vector3f.sub, Vector3f.dot]
  obtain ⟨-, pose, hpose, -, -, h3⟩ :=
    frame_rotation_of_getPose h0 c0 ⟨0, 0, 0⟩ ⟨1, 0, 0⟩ u2 ⟨0, 2, 0⟩ ⟨0, 0, 1⟩ u5 u6 u7
      nonDegenerate_scenarioBox hp
  rw [getPoseAxes_scenarioBox] at h3
  exact ⟨pose, hpose, h3⟩

/-- Witness of C9 on the scenario box. -/
theorem getPose_rotation_witness :
    (NonDegenerate Real.sqrt (⟨0, 0, 0⟩ : Vector3f ℝ) ⟨1, 0, 0⟩ ⟨0, 2, 0⟩ ⟨0, 0, 1⟩ ∧
      ((⟨0, 0, 1⟩ : Vector3f ℝ).sub ⟨0, 0, 0⟩).dot
        (longerEdge Real.sqrt (⟨0, 0, 0⟩ : Vector3f ℝ) ⟨1, 0, 0⟩ ⟨0, 2, 0⟩) = 0) ∧
    ∃ pose, getPose Real.sqrt 0 (scenarioBox : BoundingBox ℝ) = some pose ∧
      pose.pose.orientation.rotate ⟨1, 0, 0⟩ =
        (getPoseAxes Real.sqrt (⟨0, 0, 0⟩ : Vector3f ℝ) ⟨1, 0, 0⟩ ⟨0, 2, 0⟩ ⟨0, 0, 1⟩).1 ∧
      pose.pose.orientation.rotate ⟨0, 1, 0⟩ =
        (getPoseAxes Real.sqrt (⟨0, 0, 0⟩ : Vector3f ℝ) ⟨1, 0, 0⟩ ⟨0, 2, 0⟩ ⟨0, 0, 1⟩).2.1 ∧
      pose.pose.orientation.rotate ⟨0, 0, 1⟩ =
        (getPoseAxes Real.sqrt (⟨0, 0, 0⟩ : Vector3f ℝ) ⟨1, 0, 0⟩ ⟨0, 2, 0⟩ ⟨0, 0, 1⟩).2.2 :=
  have hp : ((⟨0, 0, 1⟩ : Vector3f ℝ).sub ⟨0, 0, 0⟩).dot
      (longerEdge Real.sqrt (⟨0, 0, 0⟩ : Vector3f ℝ) ⟨1, 0, 0⟩ ⟨0, 2, 0⟩) = 0 := by
    rw [longerEdge_scenarioBox]
    simp [Vector3f.sub, Vector3f.dot]
  ⟨⟨nonDegenerate_scenarioBox, hp⟩,
    (getPose_rotation 0 ⟨1 / 2, 1, 1 / 2⟩ ⟨0, 0, 0⟩ ⟨1, 0, 0⟩ ⟨1, 2, 0⟩ ⟨0, 2, 0⟩ ⟨0, 0, 1⟩
      ⟨1, 0, 1⟩ ⟨1, 2, 1⟩ ⟨0, 2, 1⟩ nonDegenerate_scenarioBox hp).1.2⟩

/-- C10: for every bounding box with 8 vertices, the position returned by `getPose`
has the `x` and `y` of the box center and `z` equal to the mean of the `z` of
vertices 0, 1, 2, 3 plus `object_height_above_workspace_` (the value stored by
`configCallback`); changing vertices 4..7 or the `z` of the center does not change
the position. -/
theorem getPose_position (sqrt : α → α) (h : α) (c v0 v1 v2 v3 v4 v5 v6 v7 : Vector3f α) :
    (∃ pose, getPose sqrt h ⟨c, [v0, v1, v2, v3, v4, v5, v6, v7]⟩ = some pose ∧
      pose.pose.position.x = c.x ∧ pose.pose.position.y = c.y ∧
      pose.pose.position.z = (v0.z + v1.z + v2.z + v3.z) / 4 + h) ∧
    (∀ (cz : α) (u4 u5 u6 u7 : Vector3f α),
      (getPose sqrt h ⟨⟨c.x, c.y, cz⟩, [v0, v1, v2, v3, u4, u5, u6, u7]⟩).map
          (fun p => p.pose.position) =
        (getPose sqrt h ⟨c, [v0, v1, v2, v3, v4, v5, v6, v7]⟩).map (fun p => p.pose.position)) ∧
    (∀ (s : NodeState α) (cfg : α), (configCallback s cfg).object_height_above_workspace_ = cfg) :=
  ⟨⟨_, getPose_eight sqrt h c v0 v1 v2 v3 v4 v5 v6 v7, rfl, rfl, rfl⟩,
    fun _ _ _ _ _ => rfl, fun _ _ => rfl⟩

end GetPoseClaims
/-! ## The claims about the callbacks -/

section NodeClaims

theorem capturedState_eq (sqrt : α → α) :
    capturedState sqrt =
      { add_to_octree_ := false
        object_id_ := 0
        debug_mode_ := false
        dataset_collection_ := false
        frame_id_ := "base_link"
        object_height_above_workspace_ := 0
        subscribed := true
        cloud_accumulation_ := [{ header := { stamp := 0, frame_id := "base_link" }, data := [1] }] } :=
  rfl

/-- C1 (failing input): the command `e_segment`, received when the segmenter finds one
box, the parameter `target_frame_id` names a frame other than the stored one and
`transformPose` raises a transform exception that is not a lookup exception, leaves
`eventCallback` through the exception: no status event is published, where the claim
says exactly one (`e_done`). -/
theorem eventCallback_segment_exception :
    (eventCallback Real.sqrt (capturedState Real.sqrt) "e_segment" extrapolationCommandEnv).abort
        = some Abort.uncaughtTransformException ∧
    statusEvents
        (eventCallback Real.sqrt (capturedState Real.sqrt) "e_segment"
          extrapolationCommandEnv).actions = [] := by
  constructor <;> rfl

/-- C3: a frame handled while capturing whose coordinate transform raises an exception
is dropped and the state is unchanged: nothing is added to the accumulation buffer,
the capturing flag stays true, the stored frame id is unchanged, no segmentation pass
runs and no status event is emitted; the next frame is attempted again (one whose
transform succeeds is passed to `addCloud`). -/
theorem pointcloudCallback_transform_failure (sqrt : α → α) (s : NodeState α)
    (msg : PointCloud2) (env : FrameEnv α) (hcap : s.add_to_octree_ = true)
    (hfail :
      env.transformPointCloud (env.target_frame_id.getD "base_link")
          ⟨⟨env.common_time, msg.header.frame_id⟩, msg.data⟩ = .lookupException ∨
      env.transformPointCloud (env.target_frame_id.getD "base_link")
          ⟨⟨env.common_time, msg.header.frame_id⟩, msg.data⟩ = .otherTransformException) :
    (pointcloudCallback sqrt s msg env).state = s ∧
    (pointcloudCallback sqrt s msg env).abort = none ∧
    (pointcloudCallback sqrt s msg env).actions = [] ∧
    addedClouds (pointcloudCallback sqrt s msg env).actions = [] ∧
    (pointcloudCallback sqrt s msg env).state.cloud_accumulation_ = s.cloud_accumulation_ ∧
    (pointcloudCallback sqrt s msg env).state.add_to_octree_ = true ∧
    (pointcloudCallback sqrt s msg env).state.frame_id_ = s.frame_id_ ∧
    passCount (pointcloudCallback sqrt s msg env).actions = 0 ∧
    statusEvents (pointcloudCallback sqrt s msg env).actions = [] ∧
    ∀ (msg2 : PointCloud2) (env2 : FrameEnv α) (m2 : PointCloud2),
      env2.transformPointCloud (env2.target_frame_id.getD "base_link")
          ⟨⟨env2.common_time, msg2.header.frame_id⟩, msg2.data⟩ = .ok m2 →
      addedClouds
        (pointcloudCallback sqrt (pointcloudCallback sqrt s msg env).state msg2 env2).actions
          = [m2] := by
  have e : pointcloudCallback sqrt s msg env = { state := s, actions := [], abort := none } := by
    unfold pointcloudCallback
    rw [if_pos hcap]
    rcases hfail with h | h <;> simp only [h]
  rw [e]
  refine ⟨rfl, rfl, rfl, rfl, rfl, hcap, rfl, rfl, rfl, ?_⟩
  intro msg2 env2 m2 h2
  exact (pointcloudCallback_ok sqrt s msg2 env2 m2 hcap h2).1

/-- Witness of C3: a capturing node receives a frame whose transform fails. -/
theorem pointcloudCallback_transform_failure_witness :
    (pointcloudCallback Real.sqrt
        (eventCallback Real.sqrt (capturedState Real.sqrt) "e_add_cloud_start"
          quietCommandEnv).state (sampleFrame 2) failFrameEnv).state =
      (eventCallback Real.sqrt (capturedState Real.sqrt) "e_add_cloud_start"
        quietCommandEnv).state ∧
    (pointcloudCallback Real.sqrt
        (eventCallback Real.sqrt (capturedState Real.sqrt) "e_add_cloud_start"
          quietCommandEnv).state (sampleFrame 2) failFrameEnv).actions = [] :=
  have h := pointcloudCallback_transform_failure Real.sqrt
    (eventCallback Real.sqrt (capturedState Real.sqrt) "e_add_cloud_start" quietCommandEnv).state
    (sampleFrame 2) failFrameEnv rfl (Or.inr rfl)
  ⟨h.1, h.2.2.1⟩

/-- C2 (counterexample): after `e_start` and `e_add_cloud_start`, two frames whose
transforms succeed arrive with no command in between. Handling the first switches
capturing off and publishes `e_add_cloud_stopped`, and only the first is passed to
`addCloud`: it is not the case that capturing stays on, no status event is emitted
and both frames are added. -/
theorem capture_two_frames_counterexample :
    ((pointcloudCallback Real.sqrt
        (run Real.sqrt (NodeState.init (some false) (some false) 0)
          [Event.command "e_start" quietCommandEnv,
            Event.command "e_add_cloud_start" quietCommandEnv]).state
        (sampleFrame 1) okFrameEnv).state.add_to_octree_ = false ∧
    statusEvents
      (pointcloudCallback Real.sqrt
        (run Real.sqrt (NodeState.init (some false) (some false) 0)
          [Event.command "e_start" quietCommandEnv,
            Event.command "e_add_cloud_start" quietCommandEnv]).state
        (sampleFrame 1) okFrameEnv).actions = ["e_add_cloud_stopped"] ∧
    addedClouds
      (run Real.sqrt (NodeState.init (some false) (some false) 0)
        [Event.command "e_start" quietCommandEnv,
          Event.command "e_add_cloud_start" quietCommandEnv,
          Event.frame (sampleFrame 1) okFrameEnv,
          Event.frame (sampleFrame 2) okFrameEnv]).actions =
      [{ header := { stamp := 0, frame_id := "base_link" }, data := [1] }] ∧
    (run Real.sqrt (NodeState.init (some false) (some false) 0)
        [Event.command "e_start" quietCommandEnv,
          Event.command "e_add_cloud_start" quietCommandEnv,
          Event.frame (sampleFrame 1) okFrameEnv,
          Event.frame (sampleFrame 2) okFrameEnv]).abort = none) ∧
    ¬ ((pointcloudCallback Real.sqrt
        (run Real.sqrt (NodeState.init (some false) (some false) 0)
          [Event.command "e_start" quietCommandEnv,
            Event.command "e_add_cloud_start" quietCommandEnv]).state
        (sampleFrame 1) okFrameEnv).state.add_to_octree_ = true ∧
      statusEvents
        (pointcloudCallback Real.sqrt
          (run Real.sqrt (NodeState.init (some false) (some false) 0)
            [Event.command "e_start" quietCommandEnv,
              Event.command "e_add_cloud_start" quietCommandEnv]).state
          (sampleFrame 1) okFrameEnv).actions = [] ∧
      addedClouds
        (run Real.sqrt (NodeState.init (some false) (some false) 0)
          [Event.command "e_start" quietCommandEnv,
            Event.command "e_add_cloud_start" quietCommandEnv,
            Event.frame (sampleFrame 1) okFrameEnv,
            Event.frame (sampleFrame 2) okFrameEnv]).actions =
        [{ header := { stamp := 0, frame_id := "base_link" }, data := [1] },
          { header := { stamp := 0, frame_id := "base_link" }, data := [2] }]) := by
  refine ⟨⟨rfl, rfl, rfl, rfl⟩, ?_⟩
  rintro ⟨h, -, -⟩
  have hf : (pointcloudCallback Real.sqrt
      (run Real.sqrt (NodeState.init (some false) (some false) 0)
        [Event.command "e_start" quietCommandEnv,
          Event.command "e_add_cloud_start" quietCommandEnv]).state
      (sampleFrame 1) okFrameEnv).state.add_to_octree_ = false := rfl
  rw [hf] at h
  cases h

/-- C2 (amended): after `e_add_cloud_start` in the subscribed state, the first frame
whose coordinate transform succeeds is passed to `addCloud`; when its handler returns
normally, capturing is then off and exactly one status event, `e_add_cloud_stopped`,
has been published; so of every sequence of frames that follows with no command in
between, exactly the first one is passed to `addCloud`. -/
theorem capture_first_frame_only (sqrt : α → α) (s : NodeState α) (cenv : CommandEnv α)
    (msg : PointCloud2) (env : FrameEnv α) (m : PointCloud2)
    (rest : List (PointCloud2 × FrameEnv α)) (hsub : s.subscribed = true)
    (hok : env.transformPointCloud (env.target_frame_id.getD "base_link")
      ⟨⟨env.common_time, msg.header.frame_id⟩, msg.data⟩ = .ok m) :
    addedClouds
      (pointcloudCallback sqrt (eventCallback sqrt s "e_add_cloud_start" cenv).state msg
        env).actions = [m] ∧
    ((pointcloudCallback sqrt (eventCallback sqrt s "e_add_cloud_start" cenv).state msg
        env).abort = none →
      (pointcloudCallback sqrt (eventCallback sqrt s "e_add_cloud_start" cenv).state msg
        env).state.add_to_octree_ = false ∧
      statusEvents
        (pointcloudCallback sqrt (eventCallback sqrt s "e_add_cloud_start" cenv).state msg
          env).actions = ["e_add_cloud_stopped"]) ∧
    addedClouds
      (run sqrt (eventCallback sqrt s "e_add_cloud_start" cenv).state
        (Event.frame msg env :: rest.map fun p => Event.frame p.1 p.2)).actions = [m] := by
  have hs1 : (eventCallback sqrt s "e_add_cloud_start" cenv).state =
      { s with add_to_octree_ := true } := rfl
  rw [hs1]
  obtain ⟨h1, h2⟩ := pointcloudCallback_ok sqrt { s with add_to_octree_ := true } msg env m rfl hok
  refine ⟨h1, fun h => ⟨(h2 h).1, (h2 h).2.2⟩, ?_⟩
  have hd : dispatch sqrt { s with add_to_octree_ := true } (Event.frame msg env) =
      pointcloudCallback sqrt { s with add_to_octree_ := true } msg env := by
    simp only [dispatch]
    rw [if_pos hsub]
  unfold run
  simp only [hd]
  split
  · exact h1
  · rename_i hab
    rw [run_frames_idle sqrt _ (h2 hab).1 rest]
    simp only [List.append_nil]
    exact h1

/-- Witness of C2 (amended): the two frames of the counterexample. -/
theorem capture_first_frame_only_witness :
    addedClouds
      (run Real.sqrt
        (eventCallback Real.sqrt
          (eventCallback Real.sqrt (NodeState.init (some false) (some false) 0) "e_start"
            quietCommandEnv).state
          "e_add_cloud_start" quietCommandEnv).state
        (Event.frame (sampleFrame 1) okFrameEnv ::
          [(sampleFrame 2, okFrameEnv)].map fun p => Event.frame p.1 p.2)).actions =
      [{ header := { stamp := 0, frame_id := "base_link" }, data := [1] }] :=
  (capture_first_frame_only Real.sqrt
    (eventCallback Real.sqrt (NodeState.init (some false) (some false) 0) "e_start"
      quietCommandEnv).state
    quietCommandEnv (sampleFrame 1) okFrameEnv
    { header := { stamp := 0, frame_id := "base_link" }, data := [1] }
    [(sampleFrame 2, okFrameEnv)] rfl rfl).2.2

/-- C5 (failing input): a pass over one box, with the parameter `target_frame_id`
naming a frame other than the stored one and `transformPose` raising a transform
exception that is not a lookup exception, is left through the exception: the object
is in no published list and no object list is published, where the claim says the
object is published with the fallback pose. -/
theorem segment_transform_exception :
    (segment Real.sqrt (capturedState Real.sqrt) (oneBoxSegmentEnv extrapolationIterEnv)).abort
        = some Abort.uncaughtTransformException ∧
    objectLists
        (segment Real.sqrt (capturedState Real.sqrt)
          (oneBoxSegmentEnv extrapolationIterEnv)).actions = [] := by
  constructor <;> rfl

/-- C6: for every sequence of commands, frames and reconfigurations handled by one
node, the ids given to the object records, in order of creation, are
`0, 1, ..., object_id_ - 1` for the final counter `object_id_`: the counter starts at
0, each record receives its current value, it grows by one per record, the ids are
strictly increasing and never repeat, and no command other than `e_segment` (in
particular not `e_reset`) changes it. -/
theorem object_ids_strictly_increasing (sqrt : α → α) (debug_mode dataset_collection : Option Bool)
    (h : α) (events : List (Event α)) :
    (NodeState.init debug_mode dataset_collection h).object_id_ = 0 ∧
    assignedIds (run sqrt (NodeState.init debug_mode dataset_collection h) events).actions =
      List.range (run sqrt (NodeState.init debug_mode dataset_collection h) events).state.object_id_ ∧
    (assignedIds (run sqrt (NodeState.init debug_mode dataset_collection h) events).actions).Pairwise
      (· < ·) ∧
    (assignedIds (run sqrt (NodeState.init debug_mode dataset_collection h) events).actions).Nodup ∧
    (∀ (s : NodeState α) (evs : List (Event α)),
      ∃ k, (run sqrt s evs).state.object_id_ = s.object_id_ + k ∧
        assignedIds (run sqrt s evs).actions = List.range' s.object_id_ k) ∧
    (∀ (s : NodeState α) (data : String) (env : CommandEnv α), data ≠ "e_segment" →
      (eventCallback sqrt s data env).state.object_id_ = s.object_id_) ∧
    (∀ (s : NodeState α) (env : CommandEnv α),
      (eventCallback sqrt s "e_reset" env).state.object_id_ = s.object_id_) := by
  obtain ⟨k, h1, h2⟩ := run_ids sqrt events (NodeState.init debug_mode dataset_collection h)
  have h0 : (NodeState.init debug_mode dataset_collection h).object_id_ = 0 := rfl
  rw [h0, Nat.zero_add] at h1
  rw [h0] at h2
  have hr : assignedIds
      (run sqrt (NodeState.init debug_mode dataset_collection h) events).actions =
      List.range (run sqrt (NodeState.init debug_mode dataset_collection h) events).state.object_id_ := by
    rw [h2, h1, List.range_eq_range']
  refine ⟨rfl, hr, ?_, ?_, fun s evs => run_ids sqrt evs s,
    fun s data env => (eventCallback_ids sqrt s data env).1, fun s env => rfl⟩
  · rw [hr]
    exact List.pairwise_lt_range _
  · rw [hr]
    exact List.nodup_range _

end NodeClaims

end SceneSegmentation
